import Mathlib

/-!
# NCC visual tracker: embedding of `tracker.cpp` and of the frame step of `main.cpp`

The development follows the C++ sources.

* C++ `int` values are `Int`; the quantities of the frame step (frame and
  template dimensions, pointer coordinates, the 100 px margin) stay far below
  `2^31`, so no wrap-around occurs there.  The pointer thread adds arbitrary
  32-bit deltas with an atomic addition, which wraps; this is `wrapInt32`.
  `a / 2` on `int` truncates towards zero and is `Int.tdiv a 2`.
* `float` correlation scores are rationals (`Score`): every finite single
  precision value is a rational and `>` on finite values is the rational
  order.  The literals `-1.0f` and `0.0f` are exactly `-1` and `0`; the
  literal `0.6f` is the single precision value nearest to `0.6`, which is
  `5033165/8388608` and lies above `3/5`.  NaN and the rounding inside the
  kernel are outside the model.
* A `cv::Mat` is represented by its geometry (`cols`, `rows`).  Pixel data
  only reaches the GPU kernel, whose source (`tracker_kernels.cl`) is not part
  of the C++ sources; the correlation map the device writes back is therefore
  an input of `track`.
* The OpenCL runtime is represented by the chronological list of API calls a
  tracker has issued (`cl_calls`); a buffer handle returned by
  `clCreateBuffer` is a fresh non-null number.
* An OpenCV exception (`frame(roi)` with a rectangle outside the frame) is not
  caught anywhere in `main`; the step then has no next state (`none`).
* The request flags are atomics written by the input threads.  One iteration
  is modelled on the values it loads; interleavings with the input threads
  are outside the model.
-/

namespace NccTracker

/-! ## Geometry (`cv::Point`, `cv::Size`, `cv::Rect`, `cv::Mat`) -/

/-- Correlation scores (`float` in the source). -/
abbrev Score := ℚ

/-- The type `cv::Point`. -/
structure Point where
  x : Int
  y : Int
  deriving DecidableEq, Repr

/-- The type `cv::Size`. -/
structure Size where
  width : Int
  height : Int
  deriving DecidableEq, Repr

/-- The type `cv::Rect`. -/
structure Rect where
  x : Int
  y : Int
  width : Int
  height : Int
  deriving DecidableEq, Repr

/-- The geometry of a `cv::Mat`. -/
structure Mat where
  cols : Int
  rows : Int
  deriving DecidableEq, Repr

/-- The method `cv::Mat::size()`. -/
def Mat.size (m : Mat) : Size := ⟨m.cols, m.rows⟩

/-- The method `cv::Mat::empty()`: no element. -/
def Mat.empty (m : Mat) : Bool := decide (m.cols ≤ 0 ∨ m.rows ≤ 0)

/-- The call `cv::resize(src, dst, dsize)`: the destination has size `dsize`. -/
def resize (_src : Mat) (dsize : Size) : Mat := ⟨dsize.width, dsize.height⟩

/-- The sub-matrix `m(roi)` of `cv::Mat::operator()(const Rect&)`. OpenCV
asserts that the rectangle lies inside the matrix and throws otherwise
(`none`). -/
def Mat.submat (m : Mat) (roi : Rect) : Option Mat :=
  if 0 ≤ roi.x ∧ 0 ≤ roi.width ∧ roi.x + roi.width ≤ m.cols ∧
     0 ≤ roi.y ∧ 0 ≤ roi.height ∧ roi.y + roi.height ≤ m.rows
  then some ⟨roi.width, roi.height⟩
  else none

/-! ## OpenCL calls issued by the tracker -/

/-- The OpenCL API calls made by `tracker.cpp`, with the handles and sizes
they are given. -/
inductive CLCall where
  | createBuffer (bytes : Int) (handle : Nat)
  | enqueueWriteBuffer (buf : Nat) (bytes : Int)
  | enqueueReadBuffer (buf : Nat) (bytes : Int)
  | setKernelArg (kernel : Nat) (index : Nat)
  | enqueueNDRangeKernel (kernel : Nat) (global_x : Int) (global_y : Int)
  | releaseMemObject (buf : Nat)
  | releaseKernel (kernel : Nat)
  | releaseProgram (program : Nat)
  | releaseCommandQueue (queue : Nat)
  | releaseContext (context : Nat)
  deriving DecidableEq, Repr

/-- Whether a call dispatches the correlation kernel. -/
def CLCall.isDispatch : CLCall → Bool
  | .enqueueNDRangeKernel _ _ _ => true
  | _ => false

/-- Whether a call allocates a device buffer. -/
def CLCall.isCreateBuffer : CLCall → Bool
  | .createBuffer _ _ => true
  | _ => false

/-! ## `class VisualTracker` -/

/-- The members of `VisualTracker` (handles are numbers, `0` is `nullptr`),
together with the OpenCL calls issued so far. -/
structure VisualTracker where
  context : Nat
  queue : Nat
  program : Nat
  ncc_kernel : Nat
  template_buf : Nat
  template_size : Size
  template_initialized : Bool
  cl_calls : List CLCall
  deriving DecidableEq, Repr

/-- The handle `clCreateBuffer` returns next: non-null and never handed out
before, since every allocation is recorded in `cl_calls`. -/
def freshHandle (calls : List CLCall) : Nat := calls.length + 1

/-- The test `processed.cols > 100 || processed.rows > 100` of `setTemplate`. -/
def tooLarge (m : Mat) : Bool := decide (m.cols > 100 ∨ m.rows > 100)

/-- The function `VisualTracker::setTemplate`. -/
def VisualTracker.setTemplate (t : VisualTracker) (template_roi : Mat) : VisualTracker :=
  let processed := template_roi
  let processed := if tooLarge processed then resize processed ⟨80, 80⟩ else processed
  let template_size := processed.size
  let calls :=
    if t.template_initialized then t.cl_calls ++ [CLCall.releaseMemObject t.template_buf]
    else t.cl_calls
  let template_size_bytes := template_size.width * template_size.height * 3 * 1
  let template_buf := freshHandle calls
  let calls := calls ++ [CLCall.createBuffer template_size_bytes template_buf]
  let calls := calls ++ [CLCall.enqueueWriteBuffer template_buf template_size_bytes]
  { t with
    template_size := template_size
    template_buf := template_buf
    template_initialized := true
    cl_calls := calls }

/-! ## The arg-max scan of `VisualTracker::track` -/

/-- The scan variables `best_correlation`, `best_x`, `best_y`. -/
structure BestMatch where
  best_correlation : Score
  best_x : Int
  best_y : Int
  deriving DecidableEq

/-- The body of the inner loop at position `(x, y)`. -/
def scanStep (correlation_map : Nat → Score) (corr_width : Nat) (y x : Nat)
    (b : BestMatch) : BestMatch :=
  let corr := correlation_map (y * corr_width + x)
  if corr > b.best_correlation then ⟨corr, x, y⟩ else b

/-- The inner loop `for (int x = 0; x < corr_width; x++)`. -/
def scanRow (correlation_map : Nat → Score) (corr_width : Nat) (y : Nat)
    (b : BestMatch) : BestMatch :=
  (List.range corr_width).foldl (fun b x => scanStep correlation_map corr_width y x b) b

/-- The outer loop `for (int y = 0; y < corr_height; y++)`, started from
`best_correlation = -1.0f`, `best_x = 0`, `best_y = 0`. -/
def findBestMatch (correlation_map : Nat → Score) (corr_width corr_height : Nat) : BestMatch :=
  (List.range corr_height).foldl (fun b y => scanRow correlation_map corr_width y b) ⟨-1, 0, 0⟩

/-- The constant `0.6f` of the confidence gate: the single precision value
nearest to `0.6`, that is `10066330 / 2^24 = 5033165 / 8388608`. -/
def confidenceThreshold : Score := 5033165 / 8388608

/-! ## `VisualTracker::track` -/

/-- What `track` leaves behind: the return value, the two by-reference
outputs `location` and `confidence`, and the tracker (whose call list has
grown). -/
structure TrackResult where
  success : Bool
  location : Point
  confidence : Score
  tracker : VisualTracker

/-- The OpenCL calls of one dispatch in `track`, in source order. -/
def dispatchCalls (t : VisualTracker) (calls : List CLCall) (search_width search_height
    corr_width corr_height : Int) : List CLCall :=
  let search_buf := freshHandle calls
  let calls := calls ++ [CLCall.createBuffer (search_width * search_height * 3 * 1) search_buf]
  let correlation_buf := freshHandle calls
  let calls := calls ++ [CLCall.createBuffer (corr_width * corr_height * 4) correlation_buf]
  let calls := calls ++
    [CLCall.enqueueWriteBuffer search_buf (search_width * search_height * 3 * 1)]
  let calls := calls ++ (List.range 8).map (fun i => CLCall.setKernelArg t.ncc_kernel i)
  let calls := calls ++ [CLCall.enqueueNDRangeKernel t.ncc_kernel corr_width corr_height]
  let calls := calls ++ [CLCall.enqueueReadBuffer correlation_buf (corr_width * corr_height * 4)]
  calls ++ [CLCall.releaseMemObject search_buf, CLCall.releaseMemObject correlation_buf]

/-- The function `VisualTracker::track`. `location` and `confidence` are
the values the referenced variables hold on entry; `correlation_map` is what
the device writes into the read-back buffer, indexed `y * corr_width + x`. -/
def VisualTracker.track (t : VisualTracker) (search_region : Mat)
    (correlation_map : Nat → Score) (location : Point) (confidence : Score) : TrackResult :=
  if !t.template_initialized then
    ⟨false, location, confidence, t⟩
  else
    let search_width := search_region.cols
    let search_height := search_region.rows
    let corr_width := search_width - t.template_size.width
    let corr_height := search_height - t.template_size.height
    if corr_width ≤ 0 ∨ corr_height ≤ 0 then
      ⟨false, ⟨Int.tdiv search_region.cols 2, Int.tdiv search_region.rows 2⟩, 0, t⟩
    else
      let calls := dispatchCalls t t.cl_calls search_width search_height corr_width corr_height
      let b := findBestMatch correlation_map corr_width.toNat corr_height.toNat
      let location : Point :=
        ⟨b.best_x + Int.tdiv t.template_size.width 2, b.best_y + Int.tdiv t.template_size.height 2⟩
      let confidence := b.best_correlation
      let success := decide (b.best_correlation > confidenceThreshold)
      ⟨success, location, confidence, { t with cl_calls := calls }⟩

/-! ## The frame step of `main` -/

/-- The function `selectTemplateAtMouse` (the default `size` is 32). -/
def selectTemplateAtMouse (frame : Mat) (mouse_x mouse_y : Int) (size : Int) : Rect :=
  let half_size := Int.tdiv size 2
  let x := max 0 (mouse_x - half_size)
  let y := max 0 (mouse_y - half_size)
  let width := min size (frame.cols - x)
  let height := min size (frame.rows - y)
  ⟨x, y, width, height⟩

/-- The variables of `main` that live across iterations of the main loop,
with the two request flags the loop consumes. -/
structure LoopState where
  tracker : VisualTracker
  tracking : Bool
  template_roi : Rect
  track_point : Point
  confidence : Score
  should_select_template : Bool
  should_reset_tracking : Bool

/-- What one iteration reads from outside: the captured frame, the pointer
position and availability loaded at the top of the iteration, and the
correlation map the device returns if a search is dispatched. -/
structure FrameInput where
  frame : Mat
  mouse_x : Int
  mouse_y : Int
  mouse_available : Bool
  correlation_map : Nat → Score

/-- The rectangle assigned to `template_roi` by the selection block. -/
def selectionRoi (inp : FrameInput) : Rect :=
  if inp.mouse_available then
    selectTemplateAtMouse inp.frame inp.mouse_x inp.mouse_y 32
  else
    selectTemplateAtMouse inp.frame (Int.tdiv inp.frame.cols 2) (Int.tdiv inp.frame.rows 2) 32

/-- The block `if (should_select_template && !tracking) { ... }`. The
result is `none` when `frame(template_roi)` throws. -/
def handleSelection (inp : FrameInput) (s : LoopState) : Option LoopState :=
  if s.should_select_template && !s.tracking then
    let template_roi := selectionRoi inp
    if template_roi.width > 20 ∧ template_roi.height > 20 then
      match inp.frame.submat template_roi with
      | none => none
      | some template_img =>
        some { s with
          tracker := s.tracker.setTemplate template_img
          template_roi := template_roi
          track_point := ⟨template_roi.x + Int.tdiv template_roi.width 2,
                          template_roi.y + Int.tdiv template_roi.height 2⟩
          tracking := true
          should_select_template := false }
    else
      some { s with template_roi := template_roi, should_select_template := false }
  else
    some s

/-- The block `if (should_reset_tracking) { ... }`. -/
def handleReset (s : LoopState) : LoopState :=
  if s.should_reset_tracking then
    { s with tracking := false, should_reset_tracking := false }
  else
    s

/-- The rectangle `search_roi` built around `track_point` (`search_margin`
is 100). -/
def searchRoi (frame : Mat) (track_point : Point) : Rect :=
  let search_margin : Int := 100
  ⟨max 0 (track_point.x - search_margin),
   max 0 (track_point.y - search_margin),
   min (frame.cols - (track_point.x - search_margin)) (search_margin * 2),
   min (frame.rows - (track_point.y - search_margin)) (search_margin * 2)⟩

/-- The block `if (tracking) { ... }`. `track` receives `track_point` and
`confidence` by reference, so both hold what `track` wrote whatever it
returns; only on success is the point translated by the window origin. The
result is `none` when `frame(search_roi)` throws. -/
def performTracking (inp : FrameInput) (s : LoopState) : Option LoopState :=
  if s.tracking then
    let search_roi := searchRoi inp.frame s.track_point
    if search_roi.width > 50 ∧ search_roi.height > 50 then
      match inp.frame.submat search_roi with
      | none => none
      | some search_region =>
        let r := s.tracker.track search_region inp.correlation_map s.track_point s.confidence
        if r.success then
          some { s with
            tracker := r.tracker
            track_point := ⟨r.location.x + search_roi.x, r.location.y + search_roi.y⟩
            confidence := r.confidence }
        else
          some { s with
            tracker := r.tracker
            track_point := r.location
            confidence := r.confidence }
    else
      some s
  else
    some s

/-- One iteration of the main loop body: an empty frame is skipped
(`continue`), otherwise selection, reset and tracking run in this order. -/
def mainLoopStep (inp : FrameInput) (s : LoopState) : Option LoopState :=
  if inp.frame.empty then
    some s
  else
    (handleSelection inp s).bind (fun s1 => performTracking inp (handleReset s1))

/-- The tracker after the constructor and a successful `initialize`: the
four handles are whatever the runtime returned, no template is set. -/
def VisualTracker.initialized (context queue program ncc_kernel : Nat) : VisualTracker :=
  { context := context, queue := queue, program := program, ncc_kernel := ncc_kernel,
    template_buf := 0, template_size := ⟨0, 0⟩, template_initialized := false,
    cl_calls := [] }

/-- The loop variables when the main loop is entered. -/
def initialLoopState (tracker : VisualTracker) : LoopState :=
  { tracker := tracker, tracking := false, template_roi := ⟨0, 0, 0, 0⟩,
    track_point := ⟨0, 0⟩, confidence := 0,
    should_select_template := false, should_reset_tracking := false }

/-! ## `VisualTracker::cleanup` -/

/-- The function `VisualTracker::cleanup`: each guarded release is issued in
source order; no member is assigned. -/
def VisualTracker.cleanup (t : VisualTracker) : VisualTracker :=
  let calls := t.cl_calls
  let calls :=
    if t.template_initialized then calls ++ [CLCall.releaseMemObject t.template_buf] else calls
  let calls := if t.ncc_kernel ≠ 0 then calls ++ [CLCall.releaseKernel t.ncc_kernel] else calls
  let calls := if t.program ≠ 0 then calls ++ [CLCall.releaseProgram t.program] else calls
  let calls := if t.queue ≠ 0 then calls ++ [CLCall.releaseCommandQueue t.queue] else calls
  let calls := if t.context ≠ 0 then calls ++ [CLCall.releaseContext t.context] else calls
  { t with cl_calls := calls }

/-! ## The pointer aggregator (`mouseInputThread`) -/

/-- A `struct input_event` as read from the device (`type` and `code` are
`__u16`, `value` is `__s32`). -/
structure InputEvent where
  type : Nat
  code : Nat
  value : Int
  deriving DecidableEq, Repr

/-- The event type `EV_KEY` of `linux/input-event-codes.h`. -/
def EV_KEY : Nat := 1

/-- The event type `EV_REL` of `linux/input-event-codes.h`. -/
def EV_REL : Nat := 2

/-- The code `REL_X` of `linux/input-event-codes.h`. -/
def REL_X : Nat := 0

/-- The code `REL_Y` of `linux/input-event-codes.h`. -/
def REL_Y : Nat := 1

/-- The code `BTN_MOUSE` of `linux/input-event-codes.h` (`0x110`). -/
def BTN_MOUSE : Nat := 272

/-- The code `BTN_LEFT` of `linux/input-event-codes.h` (`0x110`). -/
def BTN_LEFT : Nat := 272

/-- The code `BTN_RIGHT` of `linux/input-event-codes.h` (`0x111`). -/
def BTN_RIGHT : Nat := 273

/-- A value reduced to the 32-bit two-complement range, as arithmetic on
`std::atomic<int>` does. -/
def wrapInt32 (n : Int) : Int := (n + 2147483648) % 4294967296 - 2147483648

/-- The globals the pointer thread writes. -/
structure PointerState where
  mouse_x : Int
  mouse_y : Int
  mouse_left_click : Bool
  should_select_template : Bool
  should_reset_tracking : Bool
  deriving DecidableEq, Repr

/-- The globals as initialised: `mouse_x(320)`, `mouse_y(240)`, all flags
false. -/
def initialPointerState : PointerState :=
  { mouse_x := 320, mouse_y := 240, mouse_left_click := false,
    should_select_template := false, should_reset_tracking := false }

/-- The body of the event loop of `mouseInputThread` for one event that
`libevdev_next_event` delivered. -/
def handleInputEvent (ev : InputEvent) (p : PointerState) : PointerState :=
  if ev.type = EV_REL then
    if ev.code = REL_X then
      let mouse_x := wrapInt32 (p.mouse_x + ev.value)
      { p with mouse_x := max 0 (min 1920 mouse_x) }
    else if ev.code = REL_Y then
      let mouse_y := wrapInt32 (p.mouse_y + ev.value)
      { p with mouse_y := max 0 (min 1080 mouse_y) }
    else
      p
  else if ev.type = EV_KEY then
    if ev.code = BTN_LEFT ∨ ev.code = BTN_MOUSE then
      let was_clicked := p.mouse_left_click
      let mouse_left_click := decide (ev.value = 1)
      if mouse_left_click && !was_clicked then
        { p with mouse_left_click := mouse_left_click, should_select_template := true }
      else
        { p with mouse_left_click := mouse_left_click }
    else if ev.code = BTN_RIGHT then
      if ev.value = 1 then { p with should_reset_tracking := true } else p
    else
      p
  else
    p

/-- The pointer thread run over the events it reads, in order. -/
def processEvents (evs : List InputEvent) (p : PointerState) : PointerState :=
  evs.foldl (fun p ev => handleInputEvent ev p) p

/-! ## Specification predicates -/

/-- Position `(bx, by)` is the first one, in row-major order (increasing `y`,
then increasing `x`), at which the `cw × ch` surface attains its maximum. -/
def IsFirstMaxAt (correlation_map : Nat → Score) (cw ch bx by_ : Nat) : Prop :=
  bx < cw ∧ by_ < ch ∧
  (∀ x y, x < cw → y < ch →
    correlation_map (y * cw + x) ≤ correlation_map (by_ * cw + bx)) ∧
  (∀ x y, x < cw → y < ch → (y < by_ ∨ (y = by_ ∧ x < bx)) →
    correlation_map (y * cw + x) < correlation_map (by_ * cw + bx))

/-- The score `M` is the maximum of the `cw × ch` surface. -/
def IsMaxScore (correlation_map : Nat → Score) (cw ch : Nat) (M : Score) : Prop :=
  (∃ x y, x < cw ∧ y < ch ∧ correlation_map (y * cw + x) = M) ∧
  (∀ x y, x < cw → y < ch → correlation_map (y * cw + x) ≤ M)

/-- The state of the scan once the entries with linear index below `k` have
been visited: either no entry exceeded the initial `-1` and the variables are
untouched, or they hold the first entry that attains the maximum so far. -/
def ScanInv (correlation_map : Nat → Score) (cw k : Nat) (b : BestMatch) : Prop :=
  (b = ⟨-1, 0, 0⟩ ∧ ∀ i, i < k → correlation_map i ≤ -1) ∨
  (∃ bx by_ : Nat, b = ⟨correlation_map (by_ * cw + bx), bx, by_⟩ ∧ bx < cw ∧
    by_ * cw + bx < k ∧ -1 < correlation_map (by_ * cw + bx) ∧
    (∀ i, i < k → correlation_map i ≤ correlation_map (by_ * cw + bx)) ∧
    (∀ i, i < by_ * cw + bx → correlation_map i < correlation_map (by_ * cw + bx)))

/-- The search window as the specification words it: the margin box
`[x - 100, x + 100) × [y - 100, y + 100)` around the tracked point intersected
with the frame `[0, cols) × [0, rows)`. -/
def clippedMarginBox (frame : Mat) (track_point : Point) : Rect :=
  let x0 := max 0 (track_point.x - 100)
  let y0 := max 0 (track_point.y - 100)
  let x1 := min frame.cols (track_point.x + 100)
  let y1 := min frame.rows (track_point.y + 100)
  ⟨x0, y0, x1 - x0, y1 - y0⟩

/-- The loop states the program can be in between two iterations of the main
loop when every captured frame satisfies `frames`: the state on entry of the
loop, and from any such state the states obtained when an input thread
requests a selection or a reset, or when one iteration completes. -/
inductive Reachable (frames : Mat → Prop) : LoopState → Prop where
  | init (context queue program ncc_kernel : Nat) :
      Reachable frames
        (initialLoopState (VisualTracker.initialized context queue program ncc_kernel))
  | select (s : LoopState) :
      Reachable frames s → Reachable frames { s with should_select_template := true }
  | reset (s : LoopState) :
      Reachable frames s → Reachable frames { s with should_reset_tracking := true }
  | step (s s' : LoopState) (inp : FrameInput) :
      Reachable frames s → frames inp.frame → mainLoopStep inp s = some s' →
      Reachable frames s'

/-- A point lies inside the frame. -/
def PointInFrame (frame : Mat) (p : Point) : Prop :=
  (0 ≤ p.x ∧ p.x < frame.cols) ∧ (0 ≤ p.y ∧ p.y < frame.rows)

/-- A live template measures between 21 and 32 pixels in both directions,
and tracking is only active with a live template. -/
def TemplateInv (s : LoopState) : Prop :=
  (s.tracker.template_initialized = true →
    (21 ≤ s.tracker.template_size.width ∧ s.tracker.template_size.width ≤ 32) ∧
    (21 ≤ s.tracker.template_size.height ∧ s.tracker.template_size.height ≤ 32)) ∧
  (s.tracking = true → s.tracker.template_initialized = true)

/-- The state `s'` is obtained from `s` by iterations of the main loop that
each start with `tracking` true or skip an empty frame, interleaved with
requests of the input threads. -/
inductive TrackingRun : LoopState → LoopState → Prop where
  | refl (s : LoopState) : TrackingRun s s
  | select (s s1 : LoopState) :
      TrackingRun s s1 → TrackingRun s { s1 with should_select_template := true }
  | reset (s s1 : LoopState) :
      TrackingRun s s1 → TrackingRun s { s1 with should_reset_tracking := true }
  | step (s s1 s2 : LoopState) (inp : FrameInput) :
      TrackingRun s s1 → (s1.tracking = true ∨ inp.frame.empty = true) →
      mainLoopStep inp s1 = some s2 → TrackingRun s s2

/-- The selection block, run in state `s` on the input `inp`, handles a
pending request and yields `s1`: the request is cleared, the crop is taken
at the pointer of `inp`, and exactly when the crop is wider and higher than
20 pixels the template is set from it and `tracking` becomes true. -/
def SelectionHandled (inp : FrameInput) (s s1 : LoopState) : Prop :=
  handleSelection inp s = some s1 ∧ s1.should_select_template = false ∧
  s1.template_roi = selectionRoi inp ∧
  (s1.tracking = true ↔ ((selectionRoi inp).width > 20 ∧ (selectionRoi inp).height > 20)) ∧
  (s1.tracking = true →
    s1.tracker = s.tracker.setTemplate ⟨(selectionRoi inp).width, (selectionRoi inp).height⟩ ∧
    s1.track_point = ⟨(selectionRoi inp).x + Int.tdiv (selectionRoi inp).width 2,
                      (selectionRoi inp).y + Int.tdiv (selectionRoi inp).height 2⟩) ∧
  (s1.tracking = false → s1.tracker = s.tracker ∧ s1.track_point = s.track_point)

/-! ## Concrete inputs -/

/-- A tracker holding a 32 × 32 template, as one accepted selection leaves it. -/
def readyTracker : VisualTracker :=
  (VisualTracker.initialized 1 2 3 4).setTemplate ⟨32, 32⟩

/-- A 2 × 1 surface whose scores all lie below the initial `-1`. -/
def lowSurface : Nat → Score := fun i => if i = 0 then -3 else -2

/-- A 2 × 2 surface whose maximum `9/10` is attained at `(1, 0)` and `(0, 1)`. -/
def tiedSurface : Nat → Score :=
  fun i => if i = 0 then 1 / 2 else if i = 3 then 0 else 9 / 10

/-- A non-empty 1920 × 1080 frame with the pointer at `(mouse_x, mouse_y)`
and a device that returns the constant score `c`. -/
def frameInput (mouse_x mouse_y : Int) (c : Score) : FrameInput :=
  ⟨⟨1920, 1080⟩, mouse_x, mouse_y, true, fun _ => c⟩

/-- The loop state on entry of the main loop, with a selection requested. -/
def selectingState : LoopState :=
  { initialLoopState (VisualTracker.initialized 1 2 3 4) with should_select_template := true }

/-- The loop state while the 32 × 32 template is tracked at `(500, 400)` with
confidence `9/10`. -/
def trackingState : LoopState :=
  { tracker := readyTracker, tracking := true, template_roi := ⟨484, 384, 32, 32⟩,
    track_point := ⟨500, 400⟩, confidence := 9 / 10,
    should_select_template := false, should_reset_tracking := false }

/-- The state `trackingState` with a reset requested. -/
def resetRequestedState : LoopState :=
  { trackingState with should_reset_tracking := true }

/-- The state `trackingState` with a selection and a reset both requested. -/
def pendingSelectState : LoopState :=
  { trackingState with should_select_template := true, should_reset_tracking := true }

/-- The state after the selection block has accepted, in `selectingState`,
the crop `(484, 384, 32, 32)` around the pointer `(500, 400)`. -/
def selectedState : LoopState :=
  { selectingState with
    tracker := selectingState.tracker.setTemplate ⟨32, 32⟩
    template_roi := ⟨484, 384, 32, 32⟩
    track_point := ⟨500, 400⟩
    tracking := true
    should_select_template := false }

/-- The state `pendingSelectState` after a step that handled the reset: idle,
with the selection still requested. -/
def idlePendingState : LoopState :=
  { pendingSelectState with tracking := false, should_reset_tracking := false }

/-- The state `idlePendingState` after a step that rejected the 17 × 32 crop
taken with the pointer at `(1919, 500)`. -/
def rejectedState : LoopState :=
  { idlePendingState with
    template_roi := ⟨1903, 484, 17, 32⟩, should_select_template := false }

/-! ## Lemmas on the scan -/

theorem foldl_range_invariant {β : Type} (f : β → Nat → β) (P : Nat → β → Prop) :
    ∀ (n : Nat) (b0 : β), P 0 b0 → (∀ i b, i < n → P i b → P (i + 1) (f b i)) →
      P n ((List.range n).foldl f b0) := by
  intro n
  induction n with
  | zero => intro b0 h0 _; simpa using h0
  | succ n ih =>
    intro b0 h0 hstep
    rw [List.range_succ, List.foldl_append]
    simp only [List.foldl_cons, List.foldl_nil]
    exact hstep n _ (Nat.lt_succ_self n)
      (ih b0 h0 (fun i b hi hP => hstep i b (Nat.lt_succ_of_lt hi) hP))

theorem scanStep_inv (cm : Nat → Score) (cw y x : Nat) (b : BestMatch) (hx : x < cw)
    (h : ScanInv cm cw (y * cw + x) b) : ScanInv cm cw (y * cw + x + 1) (scanStep cm cw y x b) := by
  unfold scanStep
  simp only
  rcases h with ⟨hb, hle⟩ | ⟨bx, by_, hb, hbx, hlt, hgt, hle, hfirst⟩
  · subst hb
    by_cases hc : cm (y * cw + x) > -1
    · rw [if_pos hc]
      right
      refine ⟨x, y, rfl, hx, Nat.lt_succ_self _, hc, ?_, ?_⟩
      · intro i hi
        rcases Nat.lt_succ_iff_lt_or_eq.mp hi with h1 | h1
        · exact le_trans (hle i h1) (le_of_lt hc)
        · rw [h1]
      · intro i hi
        exact lt_of_le_of_lt (hle i hi) hc
    · rw [if_neg hc]
      left
      refine ⟨rfl, ?_⟩
      intro i hi
      rcases Nat.lt_succ_iff_lt_or_eq.mp hi with h1 | h1
      · exact hle i h1
      · rw [h1]; exact not_lt.mp hc
  · subst hb
    by_cases hc : cm (y * cw + x) > cm (by_ * cw + bx)
    · rw [if_pos hc]
      right
      refine ⟨x, y, rfl, hx, Nat.lt_succ_self _, lt_trans hgt hc, ?_, ?_⟩
      · intro i hi
        rcases Nat.lt_succ_iff_lt_or_eq.mp hi with h1 | h1
        · exact le_trans (hle i h1) (le_of_lt hc)
        · rw [h1]
      · intro i hi
        exact lt_of_le_of_lt (hle i hi) hc
    · rw [if_neg hc]
      right
      refine ⟨bx, by_, rfl, hbx, Nat.lt_succ_of_lt hlt, hgt, ?_, hfirst⟩
      intro i hi
      rcases Nat.lt_succ_iff_lt_or_eq.mp hi with h1 | h1
      · exact hle i h1
      · rw [h1]; exact not_lt.mp hc

theorem scanRow_inv (cm : Nat → Score) (cw y : Nat) (b : BestMatch)
    (h : ScanInv cm cw (y * cw) b) : ScanInv cm cw ((y + 1) * cw) (scanRow cm cw y b) := by
  have key := foldl_range_invariant (fun b x => scanStep cm cw y x b)
    (fun x b => ScanInv cm cw (y * cw + x) b) cw b (by simpa using h)
    (fun i b hi hP => by
      have := scanStep_inv cm cw y i b hi hP
      simpa [Nat.add_assoc] using this)
  have e : (y + 1) * cw = y * cw + cw := by ring
  rw [e]
  exact key

theorem findBestMatch_inv (cm : Nat → Score) (cw ch : Nat) :
    ScanInv cm cw (ch * cw) (findBestMatch cm cw ch) := by
  unfold findBestMatch
  exact foldl_range_invariant (fun b y => scanRow cm cw y b)
    (fun y b => ScanInv cm cw (y * cw) b) ch ⟨-1, 0, 0⟩
    (by left; exact ⟨rfl, by intro i hi; simp at hi⟩)
    (fun i b _ hP => scanRow_inv cm cw i b hP)

theorem index_lt_total {cw ch x y : Nat} (hx : x < cw) (hy : y < ch) :
    y * cw + x < ch * cw := by
  have h1 : (y + 1) * cw ≤ ch * cw := Nat.mul_le_mul_right cw hy
  have h2 : (y + 1) * cw = y * cw + cw := by ring
  omega

theorem index_lt_of_before {cw x y bx by_ : Nat} (hx : x < cw)
    (h : y < by_ ∨ (y = by_ ∧ x < bx)) : y * cw + x < by_ * cw + bx := by
  rcases h with h | ⟨h1, h2⟩
  · have h1 : (y + 1) * cw ≤ by_ * cw := Nat.mul_le_mul_right cw h
    have h2 : (y + 1) * cw = y * cw + cw := by ring
    omega
  · subst h1; omega

theorem row_lt_of_index_lt {cw ch bx by_ : Nat} (h : by_ * cw + bx < ch * cw) : by_ < ch := by
  by_contra hc
  have h1 : ch * cw ≤ by_ * cw := Nat.mul_le_mul_right cw (not_lt.mp hc)
  omega

/-- The scan ends on the first maximum, provided the initial `-1` does not
mask the surface. -/
theorem findBestMatch_first_max (cm : Nat → Score) (cw ch : Nat) (hcw : 0 < cw) (hch : 0 < ch)
    (hrange : -1 ≤ cm 0 ∨ ∃ x y, x < cw ∧ y < ch ∧ -1 < cm (y * cw + x)) :
    ∃ bx by_ : Nat, IsFirstMaxAt cm cw ch bx by_ ∧
      findBestMatch cm cw ch = ⟨cm (by_ * cw + bx), bx, by_⟩ := by
  rcases findBestMatch_inv cm cw ch with ⟨hb, hle⟩ | ⟨bx, by_, hb, hbx, hlt, _, hle, hfirst⟩
  · have h0 : -1 ≤ cm 0 := by
      rcases hrange with h | ⟨x, y, hx, hy, hgt⟩
      · exact h
      · exact absurd (hle _ (index_lt_total hx hy)) (not_le.mpr hgt)
    have hpos : 0 < ch * cw := Nat.mul_pos hch hcw
    have e0 : cm 0 = -1 := le_antisymm (hle 0 hpos) h0
    refine ⟨0, 0, ⟨hcw, hch, ?_, ?_⟩, ?_⟩
    · intro x y hx hy
      simp only [Nat.zero_mul, Nat.add_zero, e0]
      exact hle _ (index_lt_total hx hy)
    · intro x y _ _ hbefore
      rcases hbefore with h | ⟨_, h⟩
      · exact absurd h (Nat.not_lt_zero y)
      · exact absurd h (Nat.not_lt_zero x)
    · rw [hb]
      simp [e0]
  · refine ⟨bx, by_, ⟨hbx, row_lt_of_index_lt hlt, ?_, ?_⟩, hb⟩
    · intro x y hx hy
      exact hle _ (index_lt_total hx hy)
    · intro x y hx _ hbefore
      exact hfirst _ (index_lt_of_before hx hbefore)

/-- The best score of the scan exceeds a bound that is at least the initial
`-1` exactly when some entry of the surface does. -/
theorem findBestMatch_gt_iff (cm : Nat → Score) (cw ch : Nat) (thr : Score) (hthr : -1 ≤ thr) :
    thr < (findBestMatch cm cw ch).best_correlation ↔
      ∃ x y, x < cw ∧ y < ch ∧ thr < cm (y * cw + x) := by
  rcases findBestMatch_inv cm cw ch with ⟨hb, hle⟩ | ⟨bx, by_, hb, hbx, hlt, _, hle, _⟩
  · rw [hb]
    constructor
    · intro h
      exact absurd h (not_lt.mpr hthr)
    · rintro ⟨x, y, hx, hy, hgt⟩
      exact absurd (lt_of_le_of_lt hthr hgt) (not_lt.mpr (hle _ (index_lt_total hx hy)))
  · rw [hb]
    constructor
    · intro h
      exact ⟨bx, by_, hbx, row_lt_of_index_lt hlt, h⟩
    · rintro ⟨x, y, hx, hy, hgt⟩
      exact lt_of_lt_of_le hgt (hle _ (index_lt_total hx hy))

/-- On a constant surface above `-1` the scan stops at the origin. -/
theorem findBestMatch_const (c : Score) (cw ch : Nat) (hcw : 0 < cw) (hch : 0 < ch)
    (hc : -1 < c) : findBestMatch (fun _ => c) cw ch = ⟨c, 0, 0⟩ := by
  obtain ⟨bx, by_, ⟨_, _, _, hfirst⟩, hb⟩ :=
    findBestMatch_first_max (fun _ => c) cw ch hcw hch (Or.inl (le_of_lt hc))
  have hy : by_ = 0 := by
    by_contra h
    exact lt_irrefl c (hfirst 0 0 hcw hch (Or.inl (Nat.pos_of_ne_zero h)))
  subst hy
  have hx : bx = 0 := by
    by_contra h
    exact lt_irrefl c (hfirst 0 0 hcw hch (Or.inr ⟨rfl, Nat.pos_of_ne_zero h⟩))
  subst hx
  simpa using hb

/-- With a ready template and a surface of positive size `cw × ch`, `track`
dispatches once and reports what the scan found. -/
theorem track_scan_eq (t : VisualTracker) (search_region : Mat) (cm : Nat → Score)
    (location : Point) (confidence : Score) (cw ch : Nat)
    (hready : t.template_initialized = true)
    (hw : search_region.cols - t.template_size.width = (cw : Int))
    (hh : search_region.rows - t.template_size.height = (ch : Int))
    (hcw : 0 < cw) (hch : 0 < ch) :
    t.track search_region cm location confidence =
      ⟨decide ((findBestMatch cm cw ch).best_correlation > confidenceThreshold),
       ⟨(findBestMatch cm cw ch).best_x + Int.tdiv t.template_size.width 2,
        (findBestMatch cm cw ch).best_y + Int.tdiv t.template_size.height 2⟩,
       (findBestMatch cm cw ch).best_correlation,
       { t with cl_calls :=
          dispatchCalls t t.cl_calls search_region.cols search_region.rows cw ch }⟩ := by
  have h1 : ¬ ((cw : Int) ≤ 0 ∨ (ch : Int) ≤ 0) := by omega
  unfold VisualTracker.track
  simp only [hready, hw, hh, h1, Bool.not_true, Bool.false_eq_true, if_false, Int.toNat_ofNat]

/-! ## The arg-max of `track` -/

/-- C1, counterexample: on the 2 × 1 surface `(-3, -2)` the first maximum is
`-2` at `(1, 0)`, but `track` reports the untouched initial values, the
coordinate `(0, 0)` and the confidence `-1`. -/
theorem track_low_surface_misses_maximum :
    IsFirstMaxAt lowSurface 2 1 1 0 ∧ lowSurface (0 * 2 + 1) = -2 ∧
    (readyTracker.track ⟨34, 33⟩ lowSurface ⟨0, 0⟩ 0).location = ⟨0 + 16, 0 + 16⟩ ∧
    (readyTracker.track ⟨34, 33⟩ lowSurface ⟨0, 0⟩ 0).confidence = -1 ∧
    ¬ ∃ bx by_ : Nat, IsFirstMaxAt lowSurface 2 1 bx by_ ∧
        (readyTracker.track ⟨34, 33⟩ lowSurface ⟨0, 0⟩ 0).location = ⟨bx + 16, by_ + 16⟩ ∧
        (readyTracker.track ⟨34, 33⟩ lowSurface ⟨0, 0⟩ 0).confidence
          = lowSurface (by_ * 2 + bx) := by
  have hscan : findBestMatch lowSurface 2 1 = ⟨-1, 0, 0⟩ := by
    simp [findBestMatch, scanRow, scanStep, lowSurface, List.range_succ]
  have htrack := track_scan_eq readyTracker ⟨34, 33⟩ lowSurface ⟨0, 0⟩ 0 2 1
    (by decide) (by decide) (by decide) (by decide) (by decide)
  rw [htrack, hscan]
  refine ⟨⟨by decide, by decide, ?_, ?_⟩, by simp [lowSurface], by decide, rfl, ?_⟩
  · intro x y hx hy
    have hy0 : y = 0 := by omega
    subst hy0
    have hx' : x = 0 ∨ x = 1 := by omega
    rcases hx' with h | h <;> subst h <;> norm_num [lowSurface]
  · intro x y hx hy hb
    have hx0 : y = 0 ∧ x = 0 := by omega
    obtain ⟨h1, h2⟩ := hx0
    subst h1; subst h2
    norm_num [lowSurface]
  · rintro ⟨bx, by_, _, _, hconf⟩
    simp only [lowSurface] at hconf
    split_ifs at hconf <;> norm_num at hconf

/-- C1 (amended): with a ready template and a correlation surface of
strictly positive width `cw` and height `ch` that has a score above `-1` or
whose first entry is at least `-1` (in particular when all scores lie in the
NCC range), `track` picks as `(best_x, best_y)` the first position in
row-major order at which the surface attains its maximum, reports that
position shifted by half the template size, and reports the maximum as
confidence. -/
theorem track_picks_first_maximum (t : VisualTracker) (search_region : Mat)
    (cm : Nat → Score) (location : Point) (confidence : Score) (cw ch : Nat)
    (hready : t.template_initialized = true)
    (hw : search_region.cols - t.template_size.width = (cw : Int))
    (hh : search_region.rows - t.template_size.height = (ch : Int))
    (hcw : 0 < cw) (hch : 0 < ch)
    (hrange : -1 ≤ cm 0 ∨ ∃ x y, x < cw ∧ y < ch ∧ -1 < cm (y * cw + x)) :
    ∃ bx by_ : Nat, IsFirstMaxAt cm cw ch bx by_ ∧
      findBestMatch cm cw ch = ⟨cm (by_ * cw + bx), bx, by_⟩ ∧
      (t.track search_region cm location confidence).location =
        ⟨bx + Int.tdiv t.template_size.width 2, by_ + Int.tdiv t.template_size.height 2⟩ ∧
      (t.track search_region cm location confidence).confidence = cm (by_ * cw + bx) := by
  obtain ⟨bx, by_, hfirst, hb⟩ := findBestMatch_first_max cm cw ch hcw hch hrange
  refine ⟨bx, by_, hfirst, hb, ?_, ?_⟩
  · rw [track_scan_eq t search_region cm location confidence cw ch hready hw hh hcw hch, hb]
  · rw [track_scan_eq t search_region cm location confidence cw ch hready hw hh hcw hch, hb]

/-- C1, witness: the tied 2 × 2 surface `(1/2, 9/10, 9/10, 0)` over a 34 × 34
search region and the 32 × 32 template; the reported point is `(1 + 16, 0 + 16)`. -/
theorem track_picks_first_maximum_witness :
    (readyTracker.template_initialized = true ∧
      (34 : Int) - readyTracker.template_size.width = (2 : Nat) ∧
      (34 : Int) - readyTracker.template_size.height = (2 : Nat) ∧
      (-1 : Score) ≤ tiedSurface 0) ∧
    (readyTracker.track ⟨34, 34⟩ tiedSurface ⟨0, 0⟩ 0).location = ⟨17, 16⟩ ∧
    ∃ bx by_ : Nat, IsFirstMaxAt tiedSurface 2 2 bx by_ ∧
      findBestMatch tiedSurface 2 2 = ⟨tiedSurface (by_ * 2 + bx), bx, by_⟩ ∧
      (readyTracker.track ⟨34, 34⟩ tiedSurface ⟨0, 0⟩ 0).location =
        ⟨bx + Int.tdiv readyTracker.template_size.width 2,
         by_ + Int.tdiv readyTracker.template_size.height 2⟩ ∧
      (readyTracker.track ⟨34, 34⟩ tiedSurface ⟨0, 0⟩ 0).confidence
        = tiedSurface (by_ * 2 + bx) := by
  refine ⟨⟨by decide, by decide, by decide, by norm_num [tiedSurface]⟩, ?_,
    track_picks_first_maximum readyTracker ⟨34, 34⟩ tiedSurface ⟨0, 0⟩ 0 2 2
      (by decide) (by decide) (by decide) (by decide) (by decide)
      (Or.inl (by norm_num [tiedSurface]))⟩
  have hscan : findBestMatch tiedSurface 2 2 = ⟨9 / 10, 1, 0⟩ := by
    norm_num [findBestMatch, scanRow, scanStep, tiedSurface, List.range_succ]
  rw [track_scan_eq readyTracker ⟨34, 34⟩ tiedSurface ⟨0, 0⟩ 0 2 2
    (by decide) (by decide) (by decide) (by decide) (by decide), hscan]
  decide

/-! ## The confidence gate of `track` -/

/-- C2: with a ready template and a surface of strictly positive width and
height whose maximum score is `M`, `track` returns `true` exactly when the
best score it reports exceeds the constant `0.6f` the code compares with,
which is exactly when `M` exceeds it. A maximum of exactly `0.6` gives
`false`, whether it is the decimal `3/5` or the single precision value
`0.6f` (the only way a `float` surface holds `0.6`); a maximum of
`0.6000001` gives `true`, whether it is the decimal or its single precision
value `10066331 / 2^24`. -/
theorem track_success_iff_above_threshold (t : VisualTracker) (search_region : Mat)
    (cm : Nat → Score) (location : Point) (confidence : Score) (cw ch : Nat) (M : Score)
    (hready : t.template_initialized = true)
    (hw : search_region.cols - t.template_size.width = (cw : Int))
    (hh : search_region.rows - t.template_size.height = (ch : Int))
    (hcw : 0 < cw) (hch : 0 < ch) (hM : IsMaxScore cm cw ch M) :
    ((t.track search_region cm location confidence).success = true ↔
      confidenceThreshold < (t.track search_region cm location confidence).confidence) ∧
    ((t.track search_region cm location confidence).success = true ↔
      confidenceThreshold < M) ∧
    (M = confidenceThreshold →
      (t.track search_region cm location confidence).success = false) ∧
    (M = 3 / 5 → (t.track search_region cm location confidence).success = false) ∧
    (M = 6000001 / 10000000 →
      (t.track search_region cm location confidence).success = true) ∧
    (M = 10066331 / 16777216 →
      (t.track search_region cm location confidence).success = true) := by
  have hiff : confidenceThreshold < (findBestMatch cm cw ch).best_correlation ↔
      confidenceThreshold < M := by
    rw [findBestMatch_gt_iff cm cw ch confidenceThreshold
      (by norm_num [confidenceThreshold])]
    obtain ⟨⟨x0, y0, hx0, hy0, hval⟩, hle⟩ := hM
    constructor
    · rintro ⟨x, y, hx, hy, hgt⟩
      exact lt_of_lt_of_le hgt (hle x y hx hy)
    · intro h
      exact ⟨x0, y0, hx0, hy0, by rw [hval]; exact h⟩
  have hsucc : (t.track search_region cm location confidence).success = true ↔
      confidenceThreshold < M := by
    rw [track_scan_eq t search_region cm location confidence cw ch hready hw hh hcw hch]
    simp only [gt_iff_lt, decide_eq_true_eq]
    exact hiff
  have hfalse : ¬ (confidenceThreshold < M) →
      (t.track search_region cm location confidence).success = false := by
    intro hno
    cases hs : (t.track search_region cm location confidence).success
    · rfl
    · exact absurd (hsucc.mp hs) hno
  refine ⟨?_, hsucc, ?_, ?_, ?_, ?_⟩
  · rw [hsucc, ← hiff,
      track_scan_eq t search_region cm location confidence cw ch hready hw hh hcw hch]
  · intro hv
    exact hfalse (by rw [hv]; exact lt_irrefl _)
  · intro hv
    exact hfalse (by rw [hv]; norm_num [confidenceThreshold])
  · intro hv
    exact hsucc.mpr (by rw [hv]; norm_num [confidenceThreshold])
  · intro hv
    exact hsucc.mpr (by rw [hv]; norm_num [confidenceThreshold])

/-- C2, witness: over the 32 × 32 template a 1 × 1 surface holding the single
precision value of `0.6000001` is accepted, and one holding the value of
`0.6f` itself is not. -/
theorem track_success_iff_above_threshold_witness :
    (readyTracker.template_initialized = true ∧
      (33 : Int) - readyTracker.template_size.width = (1 : Nat) ∧
      (33 : Int) - readyTracker.template_size.height = (1 : Nat) ∧
      IsMaxScore (fun _ => 10066331 / 16777216) 1 1 (10066331 / 16777216) ∧
      IsMaxScore (fun _ => 5033165 / 8388608) 1 1 (5033165 / 8388608)) ∧
    (readyTracker.track ⟨33, 33⟩ (fun _ => 10066331 / 16777216) ⟨0, 0⟩ 0).success = true ∧
    (readyTracker.track ⟨33, 33⟩ (fun _ => 5033165 / 8388608) ⟨0, 0⟩ 0).success = false :=
  have hM : IsMaxScore (fun _ => 10066331 / 16777216) 1 1 (10066331 / 16777216) :=
    ⟨⟨0, 0, by decide, by decide, rfl⟩, fun _ _ _ _ => le_refl _⟩
  have hT : IsMaxScore (fun _ => 5033165 / 8388608) 1 1 (5033165 / 8388608) :=
    ⟨⟨0, 0, by decide, by decide, rfl⟩, fun _ _ _ _ => le_refl _⟩
  ⟨⟨by decide, by decide, by decide, hM, hT⟩,
   (track_success_iff_above_threshold readyTracker ⟨33, 33⟩ (fun _ => 10066331 / 16777216)
      ⟨0, 0⟩ 0 1 1 (10066331 / 16777216) (by decide) (by decide) (by decide) (by decide)
      (by decide) hM).2.2.2.2.2 rfl,
   (track_success_iff_above_threshold readyTracker ⟨33, 33⟩ (fun _ => 5033165 / 8388608)
      ⟨0, 0⟩ 0 1 1 (5033165 / 8388608) (by decide) (by decide) (by decide) (by decide)
      (by decide) hT).2.2.1 rfl⟩

/-! ## The degraded result of `track` -/

/-- C3: with a ready template, when a correlation-surface dimension is
non-positive `track` returns `false`, writes the confidence `0` and the point
`(cols / 2, rows / 2)` of the search region (truncating division), and leaves
the tracker as it was: no buffer is created, no kernel dispatched, and the
result does not depend on any surface. -/
theorem track_degenerate_surface (t : VisualTracker) (search_region : Mat)
    (cm : Nat → Score) (location : Point) (confidence : Score)
    (hready : t.template_initialized = true)
    (hdeg : search_region.cols - t.template_size.width ≤ 0 ∨
      search_region.rows - t.template_size.height ≤ 0) :
    t.track search_region cm location confidence =
      ⟨false, ⟨Int.tdiv search_region.cols 2, Int.tdiv search_region.rows 2⟩, 0, t⟩ := by
  unfold VisualTracker.track
  simp only [hready, Bool.not_true, Bool.false_eq_true, if_false]
  rw [if_pos hdeg]

/-- C3, witness: a 31 × 60 search region under the 32 × 32 template. -/
theorem track_degenerate_surface_witness :
    (readyTracker.template_initialized = true ∧
      ((31 : Int) - readyTracker.template_size.width ≤ 0 ∨
        (60 : Int) - readyTracker.template_size.height ≤ 0)) ∧
    readyTracker.track ⟨31, 60⟩ tiedSurface ⟨7, 9⟩ (1 / 2) = ⟨false, ⟨15, 30⟩, 0, readyTracker⟩ :=
  ⟨⟨by decide, by decide⟩,
   track_degenerate_surface readyTracker ⟨31, 60⟩ tiedSurface ⟨7, 9⟩ (1 / 2) (by decide)
     (by decide)⟩

/-! ## `setTemplate` -/

theorem tooLarge_eq (w h : Int) :
    tooLarge ⟨w, h⟩ = (if w ≤ 100 ∧ h ≤ 100 then false else true) := by
  unfold tooLarge
  by_cases hc : w ≤ 100 ∧ h ≤ 100
  · rw [if_pos hc]
    simp only [decide_eq_false_iff_not]
    omega
  · rw [if_neg hc]
    simp only [decide_eq_true_eq]
    omega

theorem setTemplate_template_size (t : VisualTracker) (w h : Int) :
    (t.setTemplate ⟨w, h⟩).template_size
      = (if w ≤ 100 ∧ h ≤ 100 then ⟨w, h⟩ else ⟨80, 80⟩) := by
  unfold VisualTracker.setTemplate
  simp only [tooLarge_eq]
  by_cases hc : w ≤ 100 ∧ h ≤ 100
  · simp [hc, Mat.size]
  · simp [hc, Mat.size, resize]

/-- C6: `setTemplate` on a `w × h` patch stores the size `(w, h)` when
`w ≤ 100` and `h ≤ 100`, in which case the resize branch is not taken, and
stores `(80, 80)` when `w > 100` or `h > 100`; the template is ready
afterwards in both cases. -/
theorem setTemplate_stored_size (t : VisualTracker) (w h : Int) :
    (t.setTemplate ⟨w, h⟩).template_size = (if w ≤ 100 ∧ h ≤ 100 then ⟨w, h⟩ else ⟨80, 80⟩) ∧
    tooLarge ⟨w, h⟩ = (if w ≤ 100 ∧ h ≤ 100 then false else true) ∧
    (t.setTemplate ⟨w, h⟩).template_initialized = true :=
  ⟨setTemplate_template_size t w h, tooLarge_eq w h, rfl⟩

/-! ## Lemmas on the selection block -/

theorem selectTemplateAtMouse_inside (frame : Mat) (mx my : Int)
    (h : (selectTemplateAtMouse frame mx my 32).width > 20 ∧
      (selectTemplateAtMouse frame mx my 32).height > 20) :
    frame.submat (selectTemplateAtMouse frame mx my 32) =
      some ⟨(selectTemplateAtMouse frame mx my 32).width,
            (selectTemplateAtMouse frame mx my 32).height⟩ := by
  unfold Mat.submat
  rw [if_pos]
  obtain ⟨h1, h2⟩ := h
  simp only [selectTemplateAtMouse] at h1 h2 ⊢
  refine ⟨le_max_left _ _, by omega, ?_, le_max_left _ _, by omega, ?_⟩
  · have := min_le_right (32 : Int) (frame.cols - max 0 (mx - Int.tdiv 32 2))
    omega
  · have := min_le_right (32 : Int) (frame.rows - max 0 (my - Int.tdiv 32 2))
    omega

theorem selectionRoi_inside (inp : FrameInput)
    (h : (selectionRoi inp).width > 20 ∧ (selectionRoi inp).height > 20) :
    inp.frame.submat (selectionRoi inp) =
      some ⟨(selectionRoi inp).width, (selectionRoi inp).height⟩ := by
  unfold selectionRoi at h ⊢
  split_ifs at h ⊢
  · exact selectTemplateAtMouse_inside _ _ _ h
  · exact selectTemplateAtMouse_inside _ _ _ h

theorem handleSelection_skip (inp : FrameInput) (s : LoopState)
    (h : (s.should_select_template && !s.tracking) = false) :
    handleSelection inp s = some s := by
  unfold handleSelection
  rw [h]
  rfl

theorem handleSelection_reject (inp : FrameInput) (s : LoopState)
    (hsel : s.should_select_template = true) (hnt : s.tracking = false)
    (hsmall : (selectionRoi inp).width ≤ 20 ∨ (selectionRoi inp).height ≤ 20) :
    handleSelection inp s =
      some { s with template_roi := selectionRoi inp, should_select_template := false } := by
  have hno : ¬ ((selectionRoi inp).width > 20 ∧ (selectionRoi inp).height > 20) := by omega
  unfold handleSelection
  simp only [hsel, hnt, Bool.not_false, Bool.and_self, if_true]
  rw [if_neg hno]

theorem handleSelection_accept (inp : FrameInput) (s : LoopState)
    (hsel : s.should_select_template = true) (hnt : s.tracking = false)
    (hbig : (selectionRoi inp).width > 20 ∧ (selectionRoi inp).height > 20) :
    handleSelection inp s =
      some { s with
        tracker := s.tracker.setTemplate ⟨(selectionRoi inp).width, (selectionRoi inp).height⟩
        template_roi := selectionRoi inp
        track_point := ⟨(selectionRoi inp).x + Int.tdiv (selectionRoi inp).width 2,
                        (selectionRoi inp).y + Int.tdiv (selectionRoi inp).height 2⟩
        tracking := true
        should_select_template := false } := by
  unfold handleSelection
  simp only [hsel, hnt, Bool.not_false, Bool.and_self, if_true]
  rw [if_pos hbig, selectionRoi_inside inp hbig]

/-! ## Lemmas on the reset and tracking blocks -/

theorem performTracking_idle (inp : FrameInput) (s : LoopState) (h : s.tracking = false) :
    performTracking inp s = some s := by
  unfold performTracking
  simp [h]

theorem handleReset_idle (s : LoopState) (h : s.tracking = false) :
    (handleReset s).tracking = false := by
  unfold handleReset
  split_ifs <;> simp [h]

theorem handleReset_tracker (s : LoopState) :
    (handleReset s).tracker = s.tracker ∧ (handleReset s).track_point = s.track_point ∧
    (handleReset s).confidence = s.confidence ∧ (handleReset s).template_roi = s.template_roi ∧
    (handleReset s).should_select_template = s.should_select_template := by
  unfold handleReset
  split_ifs <;> simp

theorem mainLoopStep_eq (inp : FrameInput) (s s1 : LoopState) (hne : inp.frame.empty = false)
    (h1 : handleSelection inp s = some s1) :
    mainLoopStep inp s = performTracking inp (handleReset s1) := by
  unfold mainLoopStep
  simp [hne, h1]

theorem performTracking_failure (inp : FrameInput) (s : LoopState) (region : Mat)
    (htr : s.tracking = true)
    (hroi : (searchRoi inp.frame s.track_point).width > 50 ∧
      (searchRoi inp.frame s.track_point).height > 50)
    (hsub : inp.frame.submat (searchRoi inp.frame s.track_point) = some region)
    (hfail : (s.tracker.track region inp.correlation_map s.track_point s.confidence).success
      = false) :
    performTracking inp s =
      some { s with
        tracker :=
          (s.tracker.track region inp.correlation_map s.track_point s.confidence).tracker
        track_point :=
          (s.tracker.track region inp.correlation_map s.track_point s.confidence).location
        confidence :=
          (s.tracker.track region inp.correlation_map s.track_point s.confidence).confidence } := by
  unfold performTracking
  simp only [htr, if_true]
  rw [if_pos hroi]
  simp only [hsub, hfail, Bool.false_eq_true, if_false]

theorem performTracking_success (inp : FrameInput) (s : LoopState) (region : Mat)
    (htr : s.tracking = true)
    (hroi : (searchRoi inp.frame s.track_point).width > 50 ∧
      (searchRoi inp.frame s.track_point).height > 50)
    (hsub : inp.frame.submat (searchRoi inp.frame s.track_point) = some region)
    (hsucc : (s.tracker.track region inp.correlation_map s.track_point s.confidence).success
      = true) :
    performTracking inp s =
      some { s with
        tracker :=
          (s.tracker.track region inp.correlation_map s.track_point s.confidence).tracker
        track_point :=
          ⟨(s.tracker.track region inp.correlation_map s.track_point s.confidence).location.x
              + (searchRoi inp.frame s.track_point).x,
           (s.tracker.track region inp.correlation_map s.track_point s.confidence).location.y
              + (searchRoi inp.frame s.track_point).y⟩
        confidence :=
          (s.tracker.track region inp.correlation_map s.track_point s.confidence).confidence } := by
  unfold performTracking
  simp only [htr, if_true]
  rw [if_pos hroi]
  simp only [hsub, hsucc, if_true]

/-- A successful `track` had a ready template and a surface of positive size. -/
theorem track_success_ready (t : VisualTracker) (search_region : Mat) (cm : Nat → Score)
    (location : Point) (confidence : Score)
    (h : (t.track search_region cm location confidence).success = true) :
    t.template_initialized = true ∧ 0 < search_region.cols - t.template_size.width ∧
      0 < search_region.rows - t.template_size.height := by
  unfold VisualTracker.track at h
  cases hr : t.template_initialized
  · simp [hr] at h
  · simp only [hr, Bool.not_true, Bool.false_eq_true, if_false] at h
    by_cases hd : search_region.cols - t.template_size.width ≤ 0 ∨
        search_region.rows - t.template_size.height ≤ 0
    · rw [if_pos hd] at h
      simp at h
    · refine ⟨rfl, ?_, ?_⟩ <;> omega

theorem setTemplate_dispatch_count (t : VisualTracker) (m : Mat) :
    (t.setTemplate m).cl_calls.countP CLCall.isDispatch
      = t.cl_calls.countP CLCall.isDispatch := by
  unfold VisualTracker.setTemplate
  cases t.template_initialized <;> simp [List.countP_append, CLCall.isDispatch]

/-- The selection block never throws; it leaves the reset request and the
confidence alone, dispatches no kernel and never unsets a template. -/
theorem handleSelection_total (inp : FrameInput) (s : LoopState) :
    ∃ s1, handleSelection inp s = some s1 ∧
      s1.should_reset_tracking = s.should_reset_tracking ∧
      s1.confidence = s.confidence ∧
      s1.tracker.cl_calls.countP CLCall.isDispatch
        = s.tracker.cl_calls.countP CLCall.isDispatch ∧
      (s.tracker.template_initialized = true → s1.tracker.template_initialized = true) ∧
      ((s.should_select_template && !s.tracking) = false → s1 = s) := by
  cases hc : (s.should_select_template && !s.tracking)
  · exact ⟨s, handleSelection_skip inp s hc, rfl, rfl, rfl, fun h => h, fun _ => rfl⟩
  · have hsel : s.should_select_template = true := by
      cases h1 : s.should_select_template
      · simp [h1] at hc
      · rfl
    have hnt : s.tracking = false := by
      cases h1 : s.tracking
      · rfl
      · simp [h1] at hc
    by_cases hbig : (selectionRoi inp).width > 20 ∧ (selectionRoi inp).height > 20
    · exact ⟨_, handleSelection_accept inp s hsel hnt hbig, rfl, rfl,
        setTemplate_dispatch_count _ _, fun _ => rfl, fun h => by simp at h⟩
    · exact ⟨_, handleSelection_reject inp s hsel hnt (by omega), rfl, rfl, rfl,
        fun h => h, fun h => by simp at h⟩

theorem handleReset_requested (s : LoopState) (h : s.should_reset_tracking = true) :
    handleReset s = { s with tracking := false, should_reset_tracking := false } := by
  unfold handleReset
  rw [if_pos h]

/-- The method `track` never touches the template members. -/
theorem track_keeps_template (t : VisualTracker) (search_region : Mat) (cm : Nat → Score)
    (location : Point) (confidence : Score) :
    (t.track search_region cm location confidence).tracker.template_initialized
        = t.template_initialized ∧
      (t.track search_region cm location confidence).tracker.template_size = t.template_size ∧
      (t.track search_region cm location confidence).tracker.template_buf = t.template_buf := by
  unfold VisualTracker.track
  by_cases hr : t.template_initialized = true
  · simp only [hr, Bool.not_true, Bool.false_eq_true, if_false]
    split_ifs <;> simp [hr]
  · have hf : t.template_initialized = false := by simpa using hr
    simp [hf]

/-- The tracking block changes neither `tracking`, nor the request flags, nor
the rectangle of the selection, nor the template held by the tracker. -/
theorem performTracking_preserves (inp : FrameInput) (s s' : LoopState)
    (h : performTracking inp s = some s') :
    s'.tracking = s.tracking ∧ s'.should_select_template = s.should_select_template ∧
      s'.should_reset_tracking = s.should_reset_tracking ∧ s'.template_roi = s.template_roi ∧
      s'.tracker.template_initialized = s.tracker.template_initialized ∧
      s'.tracker.template_size = s.tracker.template_size := by
  by_cases htr : s.tracking = true
  · by_cases hroi : (searchRoi inp.frame s.track_point).width > 50 ∧
        (searchRoi inp.frame s.track_point).height > 50
    · cases hsub : inp.frame.submat (searchRoi inp.frame s.track_point) with
      | none =>
        unfold performTracking at h
        rw [if_pos htr] at h
        simp only [hsub] at h
        rw [if_pos hroi] at h
        exact absurd h (by simp)
      | some region =>
        have hk := track_keeps_template s.tracker region inp.correlation_map s.track_point
          s.confidence
        cases hs : (s.tracker.track region inp.correlation_map s.track_point
            s.confidence).success
        · rw [performTracking_failure inp s region htr hroi hsub hs] at h
          obtain rfl := Option.some.inj h
          exact ⟨rfl, rfl, rfl, rfl, hk.1, hk.2.1⟩
        · rw [performTracking_success inp s region htr hroi hsub hs] at h
          obtain rfl := Option.some.inj h
          exact ⟨rfl, rfl, rfl, rfl, hk.1, hk.2.1⟩
    · unfold performTracking at h
      rw [if_pos htr] at h
      simp only [] at h
      rw [if_neg hroi] at h
      obtain rfl := Option.some.inj h
      exact ⟨rfl, rfl, rfl, rfl, rfl, rfl⟩
  · have hf : s.tracking = false := by simpa using htr
    rw [performTracking_idle inp s hf] at h
    obtain rfl := Option.some.inj h
    exact ⟨rfl, rfl, rfl, rfl, rfl, rfl⟩

/-! ## Selection in the frame step -/

/-- C7: in a frame step on a non-empty frame that observes
`should_select_template` while `tracking` is false, a crop with width ≤ 20 or
height ≤ 20 is rejected: the selection block only records the rectangle and
clears the request, and the step ends with the tracker untouched (no
`setTemplate`, no OpenCL call), `tracking` false and `track_point` unchanged.
Otherwise the crop lies inside the frame, the selection block calls
`setTemplate` on it, sets `track_point` to its centre and sets `tracking` to
true; when the step completes, the template of the crop is still the live
one and `tracking` is true unless a reset was observed in the same step. -/
theorem selection_rejects_small_crop (inp : FrameInput) (s : LoopState)
    (hne : inp.frame.empty = false)
    (hsel : s.should_select_template = true) (hnt : s.tracking = false) :
    (((selectionRoi inp).width ≤ 20 ∨ (selectionRoi inp).height ≤ 20) →
      handleSelection inp s =
        some { s with template_roi := selectionRoi inp, should_select_template := false } ∧
      ∃ s', mainLoopStep inp s = some s' ∧ s'.tracker = s.tracker ∧ s'.tracking = false ∧
        s'.track_point = s.track_point ∧ s'.should_select_template = false) ∧
    (¬ ((selectionRoi inp).width ≤ 20 ∨ (selectionRoi inp).height ≤ 20) →
      inp.frame.submat (selectionRoi inp) =
        some ⟨(selectionRoi inp).width, (selectionRoi inp).height⟩ ∧
      (∃ s1, handleSelection inp s = some s1 ∧
        s1.tracker = s.tracker.setTemplate ⟨(selectionRoi inp).width, (selectionRoi inp).height⟩ ∧
        s1.tracker.template_initialized = true ∧
        s1.tracker.template_size = ⟨(selectionRoi inp).width, (selectionRoi inp).height⟩ ∧
        s1.template_roi = selectionRoi inp ∧
        s1.track_point = ⟨(selectionRoi inp).x + Int.tdiv (selectionRoi inp).width 2,
                          (selectionRoi inp).y + Int.tdiv (selectionRoi inp).height 2⟩ ∧
        s1.tracking = true ∧ s1.should_select_template = false) ∧
      (∀ s', mainLoopStep inp s = some s' →
        s'.tracker.template_initialized = true ∧
        s'.tracker.template_size = ⟨(selectionRoi inp).width, (selectionRoi inp).height⟩ ∧
        s'.tracking = !s.should_reset_tracking)) := by
  constructor
  · intro hsmall
    have h1 := handleSelection_reject inp s hsel hnt hsmall
    refine ⟨h1, ?_⟩
    obtain ⟨s1, hs1, ht1, hk1, hp1, hf1⟩ : ∃ s1, handleSelection inp s = some s1 ∧
        s1.tracking = false ∧ s1.tracker = s.tracker ∧ s1.track_point = s.track_point ∧
        s1.should_select_template = false := ⟨_, h1, hnt, rfl, rfl, rfl⟩
    rw [mainLoopStep_eq inp s s1 hne hs1,
      performTracking_idle inp (handleReset s1) (handleReset_idle s1 ht1)]
    refine ⟨_, rfl, ?_, handleReset_idle s1 ht1, ?_, ?_⟩
    · rw [(handleReset_tracker s1).1, hk1]
    · rw [(handleReset_tracker s1).2.1, hp1]
    · rw [(handleReset_tracker s1).2.2.2.2, hf1]
  · intro hbig
    have hbig' : (selectionRoi inp).width > 20 ∧ (selectionRoi inp).height > 20 := by omega
    have hw : (selectionRoi inp).width ≤ 32 ∧ (selectionRoi inp).height ≤ 32 := by
      unfold selectionRoi selectTemplateAtMouse
      split_ifs <;> exact ⟨min_le_left _ _, min_le_left _ _⟩
    have hsz := setTemplate_template_size s.tracker (selectionRoi inp).width
      (selectionRoi inp).height
    rw [if_pos (by omega)] at hsz
    have hacc := handleSelection_accept inp s hsel hnt hbig'
    refine ⟨selectionRoi_inside inp hbig', ⟨_, hacc, rfl, rfl, hsz, rfl, rfl, rfl, rfl⟩, ?_⟩
    obtain ⟨s1, hs1, ht1, hi1, hz1, hr1⟩ : ∃ s1, handleSelection inp s = some s1 ∧
        s1.tracking = true ∧ s1.tracker.template_initialized = true ∧
        s1.tracker.template_size = ⟨(selectionRoi inp).width, (selectionRoi inp).height⟩ ∧
        s1.should_reset_tracking = s.should_reset_tracking := ⟨_, hacc, rfl, rfl, hsz, rfl⟩
    intro s' hs'
    rw [mainLoopStep_eq inp s s1 hne hs1] at hs'
    obtain ⟨pt, _, _, _, pi_, pz⟩ := performTracking_preserves inp (handleReset s1) s' hs'
    rw [(handleReset_tracker s1).1] at pi_ pz
    refine ⟨by rw [pi_, hi1], by rw [pz, hz1], ?_⟩
    rw [pt, ← hr1]
    unfold handleReset
    cases hq : s1.should_reset_tracking
    · simp [ht1]
    · simp

/-- C7, witness: on the 1920 × 1080 frame a request with the pointer at
`(1919, 500)` gives a 17 × 32 crop and is rejected; with the pointer at
`(500, 400)` the crop is 32 × 32 and is accepted. -/
theorem selection_rejects_small_crop_witness :
    ((frameInput 1919 500 0).frame.empty = false ∧
      selectingState.should_select_template = true ∧ selectingState.tracking = false ∧
      selectionRoi (frameInput 1919 500 0) = ⟨1903, 484, 17, 32⟩ ∧
      selectionRoi (frameInput 500 400 0) = ⟨484, 384, 32, 32⟩) ∧
    (∃ s', mainLoopStep (frameInput 1919 500 0) selectingState = some s' ∧
      s'.tracker = selectingState.tracker ∧ s'.tracking = false ∧
      s'.track_point = selectingState.track_point ∧ s'.should_select_template = false) ∧
    (∃ s1, handleSelection (frameInput 500 400 0) selectingState = some s1 ∧
      s1.tracker.template_initialized = true ∧ s1.track_point = ⟨500, 400⟩ ∧
      s1.tracking = true) := by
  refine ⟨⟨by decide, by decide, by decide, by decide, by decide⟩, ?_, ?_⟩
  · exact ((selection_rejects_small_crop (frameInput 1919 500 0) selectingState
      (by decide) (by decide) (by decide)).1 (by decide)).2
  · obtain ⟨_, ⟨s1, h1, _, h3, _, _, h6, h7, _⟩, _⟩ :=
      (selection_rejects_small_crop (frameInput 500 400 0) selectingState
        (by decide) (by decide) (by decide)).2 (by decide)
    exact ⟨s1, h1, h3, by rw [h6]; decide, h7⟩

/-- C8, counterexample: with the pointer at `(0, 0)` on the 1920 × 1080 frame
the crop is the full 32 × 32 square at the origin, not a clipped 16 × 32
one, and the selection is accepted: the step ends with a template set and
`tracking` true. -/
theorem corner_selection_not_clipped :
    selectTemplateAtMouse (frameInput 0 0 0).frame 0 0 32 = ⟨0, 0, 32, 32⟩ ∧
    (selectTemplateAtMouse (frameInput 0 0 0).frame 0 0 32).width ≠ 16 ∧
    selectingState.tracking = false ∧
    selectingState.tracker.template_initialized = false ∧
    ∃ s1, handleSelection (frameInput 0 0 0) selectingState = some s1 ∧
      s1.tracking = true ∧ s1.tracker.template_initialized = true ∧
      s1.tracker.template_size = ⟨32, 32⟩ := by
  refine ⟨by decide, by decide, by decide, by decide, _,
    handleSelection_accept (frameInput 0 0 0) selectingState (by decide) (by decide)
      (by decide), rfl, rfl, ?_⟩
  decide

/-- C8 (amended): with the pointer device available and the pointer at
`(0, 0)`, on every frame of at least 32 × 32 the default-size crop is the
unclipped 32 × 32 square at the origin, and a selection requested while not
tracking is accepted by the selection block: `setTemplate` receives the
32 × 32 patch, `track_point` becomes `(16, 16)` and `tracking` becomes
true. -/
theorem corner_selection_is_accepted (inp : FrameInput) (s : LoopState)
    (hcols : 32 ≤ inp.frame.cols) (hrows : 32 ≤ inp.frame.rows)
    (hav : inp.mouse_available = true) (hmx : inp.mouse_x = 0) (hmy : inp.mouse_y = 0)
    (hsel : s.should_select_template = true) (hnt : s.tracking = false) :
    selectTemplateAtMouse inp.frame inp.mouse_x inp.mouse_y 32 = ⟨0, 0, 32, 32⟩ ∧
    handleSelection inp s =
      some { s with
        tracker := s.tracker.setTemplate ⟨32, 32⟩
        template_roi := ⟨0, 0, 32, 32⟩
        track_point := ⟨16, 16⟩
        tracking := true
        should_select_template := false } ∧
    (s.tracker.setTemplate ⟨32, 32⟩).template_initialized = true ∧
    (s.tracker.setTemplate ⟨32, 32⟩).template_size = ⟨32, 32⟩ := by
  have hroi : selectTemplateAtMouse inp.frame inp.mouse_x inp.mouse_y 32 = ⟨0, 0, 32, 32⟩ := by
    rw [hmx, hmy]
    unfold selectTemplateAtMouse
    have e : Int.tdiv 32 2 = 16 := by decide
    simp only [e]
    have e1 : max (0 : Int) (0 - 16) = 0 := by decide
    rw [e1]
    have e2 : min (32 : Int) (inp.frame.cols - 0) = 32 := by
      rw [min_eq_left]; omega
    have e3 : min (32 : Int) (inp.frame.rows - 0) = 32 := by
      rw [min_eq_left]; omega
    rw [e2, e3]
  have hsr : selectionRoi inp = ⟨0, 0, 32, 32⟩ := by
    unfold selectionRoi
    rw [if_pos hav, hroi]
  have hacc := handleSelection_accept inp s hsel hnt (by rw [hsr]; decide)
  rw [hsr] at hacc
  refine ⟨hroi, ?_, rfl, ?_⟩
  · rw [hacc]
    have e : (0 : Int) + Int.tdiv 32 2 = 16 := by decide
    simp only [e]
  · have hsz := setTemplate_template_size s.tracker 32 32
    rw [if_pos (by decide)] at hsz
    exact hsz

/-- C8, witness: the 1920 × 1080 frame, pointer at the corner, selection
requested in the initial state. -/
theorem corner_selection_is_accepted_witness :
    ((32 : Int) ≤ (frameInput 0 0 0).frame.cols ∧ (32 : Int) ≤ (frameInput 0 0 0).frame.rows ∧
      (frameInput 0 0 0).mouse_available = true ∧ (frameInput 0 0 0).mouse_x = 0 ∧
      (frameInput 0 0 0).mouse_y = 0 ∧ selectingState.should_select_template = true ∧
      selectingState.tracking = false) ∧
    handleSelection (frameInput 0 0 0) selectingState =
      some { selectingState with
        tracker := selectingState.tracker.setTemplate ⟨32, 32⟩
        template_roi := ⟨0, 0, 32, 32⟩
        track_point := ⟨16, 16⟩
        tracking := true
        should_select_template := false } :=
  ⟨⟨by decide, by decide, by decide, by decide, by decide, by decide, by decide⟩,
   (corner_selection_is_accepted (frameInput 0 0 0) selectingState (by decide) (by decide)
     (by decide) (by decide) (by decide) (by decide) (by decide)).2.1⟩

/-! ## The tracking block of the frame step -/

/-- C4, evaluation at the failing input: tracking at `(500, 400)` with
confidence `9/10`, the 1920 × 1080 frame and a device returning the constant
score `1/2`. The search window is `(400, 300, 200, 200)`, `track` returns
`false` with best coordinate `(0, 0)`, and since it writes through the
references the step ends with `track_point = (16, 16)`, in window
coordinates, and `confidence = 1/2`, not with the values held before. -/
theorem failed_search_overwrites_track_point :
    trackingState.track_point = ⟨500, 400⟩ ∧ trackingState.confidence = 9 / 10 ∧
    searchRoi (frameInput 0 0 (1 / 2)).frame trackingState.track_point = ⟨400, 300, 200, 200⟩ ∧
    (trackingState.tracker.track ⟨200, 200⟩ (frameInput 0 0 (1 / 2)).correlation_map
      trackingState.track_point trackingState.confidence).success = false ∧
    ∃ s', mainLoopStep (frameInput 0 0 (1 / 2)) trackingState = some s' ∧
      s'.tracking = true ∧ s'.track_point = ⟨16, 16⟩ ∧ s'.confidence = 1 / 2 := by
  have hscan : findBestMatch (frameInput 0 0 (1 / 2)).correlation_map 168 168 = ⟨1 / 2, 0, 0⟩ :=
    findBestMatch_const (1 / 2) 168 168 (by decide) (by decide) (by norm_num)
  have htrack := track_scan_eq trackingState.tracker ⟨200, 200⟩
    (frameInput 0 0 (1 / 2)).correlation_map trackingState.track_point
    trackingState.confidence 168 168 (by decide) (by decide) (by decide) (by decide)
    (by decide)
  rw [hscan] at htrack
  have hfail : (trackingState.tracker.track ⟨200, 200⟩ (frameInput 0 0 (1 / 2)).correlation_map
      trackingState.track_point trackingState.confidence).success = false := by
    rw [htrack]
    simp only [confidenceThreshold, gt_iff_lt, decide_eq_false_iff_not]
    norm_num
  have hstep := performTracking_failure (frameInput 0 0 (1 / 2)) trackingState ⟨200, 200⟩
    (by decide) (by decide) (by decide) hfail
  have hmain := mainLoopStep_eq (frameInput 0 0 (1 / 2)) trackingState trackingState
    (by decide) (handleSelection_skip _ _ (by decide))
  have hsz : trackingState.tracker.template_size = ⟨32, 32⟩ := by decide
  have e : Int.tdiv 32 2 = 16 := by decide
  rw [show handleReset trackingState = trackingState from rfl, hstep, htrack] at hmain
  simp only [hsz, e] at hmain
  exact ⟨rfl, rfl, by decide, hfail, _, hmain, rfl, rfl, rfl⟩

/-- C5: in a frame step on a non-empty frame whose selection and reset
blocks leave the state `s2` with `tracking` true, whose search window `roi`
(origin `(roi.x, roi.y)`) is larger than 50 × 50 and lies in the frame, and
in which `track` succeeds, the step ends with `track_point` equal to
`(roi.x + best_x + tw / 2, roi.y + best_y + th / 2)` (truncating halves of the
template size `tw × th`, `(best_x, best_y)` the coordinate found by the
scan), `confidence` equal to the best score, and `tracking` still true. -/
theorem tracking_success_translates_point (inp : FrameInput) (s s1 s2 : LoopState)
    (roi : Rect) (region : Mat) (b : BestMatch)
    (hne : inp.frame.empty = false)
    (hsel : handleSelection inp s = some s1)
    (hs2 : s2 = handleReset s1)
    (htr : s2.tracking = true)
    (hroi : roi = searchRoi inp.frame s2.track_point)
    (hbig : roi.width > 50 ∧ roi.height > 50)
    (hsub : inp.frame.submat roi = some region)
    (hb : b = findBestMatch inp.correlation_map
      (region.cols - s2.tracker.template_size.width).toNat
      (region.rows - s2.tracker.template_size.height).toNat)
    (hsucc : (s2.tracker.track region inp.correlation_map s2.track_point s2.confidence).success
      = true) :
    ∃ s', mainLoopStep inp s = some s' ∧
      s'.track_point =
        ⟨roi.x + b.best_x + Int.tdiv s2.tracker.template_size.width 2,
         roi.y + b.best_y + Int.tdiv s2.tracker.template_size.height 2⟩ ∧
      s'.confidence = b.best_correlation ∧ s'.tracking = true := by
  obtain ⟨hready, hw, hh⟩ := track_success_ready _ _ _ _ _ hsucc
  have hcw : ((region.cols - s2.tracker.template_size.width).toNat : Int)
      = region.cols - s2.tracker.template_size.width := Int.toNat_of_nonneg (le_of_lt hw)
  have hch : ((region.rows - s2.tracker.template_size.height).toNat : Int)
      = region.rows - s2.tracker.template_size.height := Int.toNat_of_nonneg (le_of_lt hh)
  have htrack := track_scan_eq s2.tracker region inp.correlation_map s2.track_point
    s2.confidence _ _ hready hcw.symm hch.symm (by omega) (by omega)
  rw [← hb] at htrack
  subst hroi
  have hstep := performTracking_success inp s2 region htr hbig hsub hsucc
  rw [htrack] at hstep
  have hmain := mainLoopStep_eq inp s s1 hne hsel
  rw [← hs2, hstep] at hmain
  refine ⟨_, hmain, ?_, rfl, htr⟩
  simp only [Point.mk.injEq]
  constructor <;> ring

/-- C5, witness: tracking at `(500, 400)` on the 1920 × 1080 frame with a
device returning the constant score `9/10`; the window origin is
`(400, 300)`, the scan stops at `(0, 0)` and the step ends with
`track_point = (416, 316)`. -/
theorem tracking_success_translates_point_witness :
    ((frameInput 0 0 (9 / 10)).frame.empty = false ∧
      handleSelection (frameInput 0 0 (9 / 10)) trackingState = some trackingState ∧
      trackingState = handleReset trackingState ∧ trackingState.tracking = true ∧
      (⟨400, 300, 200, 200⟩ : Rect)
        = searchRoi (frameInput 0 0 (9 / 10)).frame trackingState.track_point ∧
      ((⟨400, 300, 200, 200⟩ : Rect).width > 50 ∧ (⟨400, 300, 200, 200⟩ : Rect).height > 50) ∧
      (frameInput 0 0 (9 / 10)).frame.submat ⟨400, 300, 200, 200⟩ = some ⟨200, 200⟩ ∧
      (trackingState.tracker.track ⟨200, 200⟩ (frameInput 0 0 (9 / 10)).correlation_map
        trackingState.track_point trackingState.confidence).success = true) ∧
    ∃ s', mainLoopStep (frameInput 0 0 (9 / 10)) trackingState = some s' ∧
      s'.track_point = ⟨416, 316⟩ ∧ s'.confidence = 9 / 10 ∧ s'.tracking = true := by
  have hscan : findBestMatch (frameInput 0 0 (9 / 10)).correlation_map 168 168
      = ⟨9 / 10, 0, 0⟩ :=
    findBestMatch_const (9 / 10) 168 168 (by decide) (by decide) (by norm_num)
  have htrack := track_scan_eq trackingState.tracker ⟨200, 200⟩
    (frameInput 0 0 (9 / 10)).correlation_map trackingState.track_point
    trackingState.confidence 168 168 (by decide) (by decide) (by decide) (by decide)
    (by decide)
  rw [hscan] at htrack
  have hsucc : (trackingState.tracker.track ⟨200, 200⟩
      (frameInput 0 0 (9 / 10)).correlation_map trackingState.track_point
      trackingState.confidence).success = true := by
    rw [htrack]
    simp only [confidenceThreshold, gt_iff_lt, decide_eq_true_eq]
    norm_num
  have hskip : handleSelection (frameInput 0 0 (9 / 10)) trackingState = some trackingState :=
    handleSelection_skip _ _ (by decide)
  refine ⟨⟨by decide, hskip, rfl, rfl, by decide, by decide, by decide, hsucc⟩, ?_⟩
  exact tracking_success_translates_point (frameInput 0 0 (9 / 10)) trackingState
    trackingState trackingState ⟨400, 300, 200, 200⟩ ⟨200, 200⟩ ⟨9 / 10, 0, 0⟩ (by decide)
    hskip rfl rfl (by decide) (by decide) (by decide) hscan.symm hsucc

/-! ## Reset in the frame step -/

/-- C9: whatever the state and the other inputs, a frame step on a non-empty
frame that observes `should_reset_tracking` ends with `tracking` false and
the request cleared, so that the reset block of the next step does nothing;
no correlation search runs in the step: no kernel dispatch is added to the
OpenCL calls and `confidence` keeps its value. -/
theorem reset_returns_to_idle (inp : FrameInput) (s : LoopState)
    (hne : inp.frame.empty = false) (hreset : s.should_reset_tracking = true) :
    ∃ s', mainLoopStep inp s = some s' ∧ s'.tracking = false ∧
      s'.should_reset_tracking = false ∧ handleReset s' = s' ∧
      s'.tracker.cl_calls.countP CLCall.isDispatch
        = s.tracker.cl_calls.countP CLCall.isDispatch ∧
      s'.confidence = s.confidence := by
  obtain ⟨s1, h1, hr1, hc1, hd1, _, _⟩ := handleSelection_total inp s
  have hreq : s1.should_reset_tracking = true := by rw [hr1, hreset]
  have hidle : (handleReset s1).tracking = false := by
    rw [handleReset_requested s1 hreq]
  refine ⟨handleReset s1, ?_, hidle, ?_, ?_, ?_, ?_⟩
  · rw [mainLoopStep_eq inp s s1 hne h1]
    exact performTracking_idle inp _ hidle
  · rw [handleReset_requested s1 hreq]
  · rw [handleReset_requested s1 hreq]
    rfl
  · rw [(handleReset_tracker s1).1, hd1]
  · rw [(handleReset_tracker s1).2.2.1, hc1]

/-- C9, witness: a reset requested while tracking at `(500, 400)`. -/
theorem reset_returns_to_idle_witness :
    ((frameInput 0 0 (9 / 10)).frame.empty = false ∧
      resetRequestedState.should_reset_tracking = true ∧
      resetRequestedState.tracking = true) ∧
    ∃ s', mainLoopStep (frameInput 0 0 (9 / 10)) resetRequestedState = some s' ∧
      s'.tracking = false ∧ s'.should_reset_tracking = false ∧ handleReset s' = s' ∧
      s'.tracker.cl_calls.countP CLCall.isDispatch
        = resetRequestedState.tracker.cl_calls.countP CLCall.isDispatch ∧
      s'.confidence = resetRequestedState.confidence :=
  ⟨⟨by decide, by decide, by decide⟩,
   reset_returns_to_idle (frameInput 0 0 (9 / 10)) resetRequestedState (by decide)
     (by decide)⟩

/-- C10, counterexample: a reset requested while the 32 × 32 template is
tracked at `(500, 400)`. After the step the template is still ready, so a
following `track` call dispatches instead of being rejected, and
`track_point` is still `(500, 400)`. -/
theorem reset_leaves_template_and_point :
    resetRequestedState.tracker.template_initialized = true ∧
    resetRequestedState.track_point = ⟨500, 400⟩ ∧
    ∃ s', mainLoopStep (frameInput 0 0 (9 / 10)) resetRequestedState = some s' ∧
      s'.tracking = false ∧
      s'.tracker.template_initialized = true ∧ s'.track_point = ⟨500, 400⟩ ∧
      (s'.tracker.track ⟨200, 200⟩ (fun _ => 9 / 10) ⟨0, 0⟩ 0).success = true ∧
      ¬ (s'.tracker.template_initialized = false ∧
          s'.track_point ≠ resetRequestedState.track_point) := by
  have hstep : mainLoopStep (frameInput 0 0 (9 / 10)) resetRequestedState
      = some { resetRequestedState with tracking := false, should_reset_tracking := false } := by
    rw [mainLoopStep_eq _ _ resetRequestedState (by decide)
      (handleSelection_skip _ _ (by decide)),
      handleReset_requested resetRequestedState (by decide)]
    exact performTracking_idle _ _ rfl
  refine ⟨by decide, rfl, _, hstep, rfl, by decide, rfl, ?_, ?_⟩
  · rw [track_scan_eq _ ⟨200, 200⟩ (fun _ => 9 / 10) ⟨0, 0⟩ 0 168 168 (by decide) (by decide)
      (by decide) (by decide) (by decide),
      findBestMatch_const (9 / 10) 168 168 (by decide) (by decide) (by norm_num)]
    simp only [confidenceThreshold, gt_iff_lt, decide_eq_true_eq]
    norm_num
  · rintro ⟨h, _⟩
    exact absurd h (by decide)

/-- C10 (amended): in every state in which a template is live, a frame step
on a non-empty frame that observes `should_reset_tracking` ends with
`tracking` false but with the template still ready (`template_initialized`
stays true, so a following `track` call is not rejected as not ready); and
unless the same step acts on a selection request, the tracker and
`track_point` are exactly what they were before the step. -/
theorem reset_keeps_template_and_point (inp : FrameInput) (s : LoopState)
    (hne : inp.frame.empty = false) (hreset : s.should_reset_tracking = true)
    (hlive : s.tracker.template_initialized = true) :
    ∃ s', mainLoopStep inp s = some s' ∧ s'.tracking = false ∧
      s'.tracker.template_initialized = true ∧
      ((s.should_select_template && !s.tracking) = false →
        s'.tracker = s.tracker ∧ s'.track_point = s.track_point) := by
  obtain ⟨s1, h1, hr1, _, _, hl1, hsame⟩ := handleSelection_total inp s
  have hreq : s1.should_reset_tracking = true := by rw [hr1, hreset]
  have hidle : (handleReset s1).tracking = false := by
    rw [handleReset_requested s1 hreq]
  refine ⟨handleReset s1, ?_, hidle, ?_, ?_⟩
  · rw [mainLoopStep_eq inp s s1 hne h1]
    exact performTracking_idle inp _ hidle
  · rw [(handleReset_tracker s1).1]
    exact hl1 hlive
  · intro hskip
    rw [(handleReset_tracker s1).1, (handleReset_tracker s1).2.1, hsame hskip]
    exact ⟨rfl, rfl⟩

/-- C10, witness: the reset requested while tracking at `(500, 400)`. -/
theorem reset_keeps_template_and_point_witness :
    ((frameInput 0 0 0).frame.empty = false ∧
      resetRequestedState.should_reset_tracking = true ∧
      resetRequestedState.tracker.template_initialized = true ∧
      (resetRequestedState.should_select_template && !resetRequestedState.tracking) = false) ∧
    ∃ s', mainLoopStep (frameInput 0 0 0) resetRequestedState = some s' ∧
      s'.tracking = false ∧ s'.tracker.template_initialized = true ∧
      s'.tracker = resetRequestedState.tracker ∧
      s'.track_point = resetRequestedState.track_point := by
  obtain ⟨s', h1, h2, h3, h4⟩ :=
    reset_keeps_template_and_point (frameInput 0 0 0) resetRequestedState (by decide)
      (by decide) (by decide)
  exact ⟨⟨by decide, by decide, by decide, by decide⟩, s', h1, h2, h3, (h4 (by decide)).1,
    (h4 (by decide)).2⟩

/-! ## The pointer aggregator -/

theorem wrapInt32_range (n : Int) : -2147483648 ≤ wrapInt32 n ∧ wrapInt32 n < 2147483648 := by
  unfold wrapInt32
  omega

/-- One event keeps the pointer inside the display bounds. -/
theorem handleInputEvent_clamped (ev : InputEvent) (p : PointerState)
    (h : (0 ≤ p.mouse_x ∧ p.mouse_x ≤ 1920) ∧ (0 ≤ p.mouse_y ∧ p.mouse_y ≤ 1080)) :
    (0 ≤ (handleInputEvent ev p).mouse_x ∧ (handleInputEvent ev p).mouse_x ≤ 1920) ∧
    (0 ≤ (handleInputEvent ev p).mouse_y ∧ (handleInputEvent ev p).mouse_y ≤ 1080) := by
  unfold handleInputEvent
  dsimp only
  split_ifs
  all_goals
    first
    | exact h
    | exact ⟨⟨le_max_left _ _, max_le (by decide) (min_le_left _ _)⟩, h.2⟩
    | exact ⟨h.1, ⟨le_max_left _ _, max_le (by decide) (min_le_left _ _)⟩⟩

theorem processEvents_clamped (evs : List InputEvent) :
    ∀ p : PointerState,
      ((0 ≤ p.mouse_x ∧ p.mouse_x ≤ 1920) ∧ (0 ≤ p.mouse_y ∧ p.mouse_y ≤ 1080)) →
      (0 ≤ (processEvents evs p).mouse_x ∧ (processEvents evs p).mouse_x ≤ 1920) ∧
      (0 ≤ (processEvents evs p).mouse_y ∧ (processEvents evs p).mouse_y ≤ 1080) := by
  induction evs with
  | nil => intro p h; exact h
  | cons ev evs ih =>
    intro p h
    exact ih (handleInputEvent ev p) (handleInputEvent_clamped ev p h)

/-- C11: for every finite sequence of input events processed from the
initial position `(320, 240)`, whatever the 32-bit deltas (the atomic addition
wraps around), the pointer ends inside the display bounds,
`0 ≤ mouse_x ≤ 1920` and `0 ≤ mouse_y ≤ 1080`; as this holds for every
sequence it holds after each event. A `REL_X` event leaves `mouse_y`
unchanged and a `REL_Y` event leaves `mouse_x` unchanged. -/
theorem pointer_stays_clamped (evs : List InputEvent) :
    ((0 ≤ (processEvents evs initialPointerState).mouse_x ∧
        (processEvents evs initialPointerState).mouse_x ≤ 1920) ∧
      (0 ≤ (processEvents evs initialPointerState).mouse_y ∧
        (processEvents evs initialPointerState).mouse_y ≤ 1080)) ∧
    (∀ (p : PointerState) (v : Int),
      (handleInputEvent ⟨EV_REL, REL_X, v⟩ p).mouse_y = p.mouse_y ∧
      (handleInputEvent ⟨EV_REL, REL_X, v⟩ p).mouse_x
        = max 0 (min 1920 (wrapInt32 (p.mouse_x + v))) ∧
      (handleInputEvent ⟨EV_REL, REL_Y, v⟩ p).mouse_x = p.mouse_x ∧
      (handleInputEvent ⟨EV_REL, REL_Y, v⟩ p).mouse_y
        = max 0 (min 1080 (wrapInt32 (p.mouse_y + v)))) := by
  refine ⟨processEvents_clamped evs initialPointerState (by decide), ?_⟩
  intro p v
  refine ⟨?_, ?_, ?_, ?_⟩ <;> simp [handleInputEvent, EV_REL, REL_X, REL_Y]

/-! ## Resource release -/

/-- C12, evaluation at the failing input: a tracker with the handles
`1, 2, 3, 4` and a live template. The first `cleanup` releases the template
buffer, the kernel, the program, the queue and the context; as no member is
reset, the second `cleanup` issues the same five releases again, so each
resource is released twice. -/
theorem second_cleanup_releases_again :
    readyTracker.cleanup.cl_calls = readyTracker.cl_calls ++
      [CLCall.releaseMemObject readyTracker.template_buf, CLCall.releaseKernel 4,
       CLCall.releaseProgram 3, CLCall.releaseCommandQueue 2, CLCall.releaseContext 1] ∧
    readyTracker.cleanup.cleanup.cl_calls = readyTracker.cleanup.cl_calls ++
      [CLCall.releaseMemObject readyTracker.template_buf, CLCall.releaseKernel 4,
       CLCall.releaseProgram 3, CLCall.releaseCommandQueue 2, CLCall.releaseContext 1] ∧
    readyTracker.cleanup.cleanup.cl_calls.count
      (CLCall.releaseMemObject readyTracker.template_buf) = 2 ∧
    readyTracker.cleanup.cleanup.cl_calls.count (CLCall.releaseContext 1) = 2 := by
  decide

/-! ## The search window -/

/-- C13, counterexample: on the 1920 × 1080 frame with the tracked point
`(50, 500)` the margin box clipped to the frame is `(0, 400, 150, 200)`, but
the window the step builds is `(0, 400, 200, 200)`: the origin is clamped to
`0` while the width is still measured from `x - 100`. -/
theorem search_window_wider_than_clipped_box :
    ((0 : Int) ≤ 50 ∧ (50 : Int) < 1920 ∧ (0 : Int) ≤ 500 ∧ (500 : Int) < 1080) ∧
    clippedMarginBox ⟨1920, 1080⟩ ⟨50, 500⟩ = ⟨0, 400, 150, 200⟩ ∧
    searchRoi ⟨1920, 1080⟩ ⟨50, 500⟩ = ⟨0, 400, 200, 200⟩ ∧
    searchRoi ⟨1920, 1080⟩ ⟨50, 500⟩ ≠ clippedMarginBox ⟨1920, 1080⟩ ⟨50, 500⟩ := by
  decide

/-- C13 (amended): for every frame and every tracked point inside it, the
search window has the origin of the clipped margin box. Along an axis on
which the point is at least 100 px from the low edge, the extent of the
window equals that of the clipped margin box; along an axis on which the
point is closer than 100 px to the low edge and the frame measures at least
200 px, the window spans the full `[0, 200)`. When on each axis one of the
two cases applies, the window contains the clipped margin box and is a
sub-region of the frame. -/
theorem search_window_extent (frame : Mat) (p : Point)
    (hx : 0 ≤ p.x ∧ p.x < frame.cols) (hy : 0 ≤ p.y ∧ p.y < frame.rows) :
    (searchRoi frame p).x = (clippedMarginBox frame p).x ∧
    (searchRoi frame p).y = (clippedMarginBox frame p).y ∧
    (100 ≤ p.x → (searchRoi frame p).width = (clippedMarginBox frame p).width) ∧
    (p.x < 100 → 200 ≤ frame.cols → (searchRoi frame p).width = 200) ∧
    (100 ≤ p.y → (searchRoi frame p).height = (clippedMarginBox frame p).height) ∧
    (p.y < 100 → 200 ≤ frame.rows → (searchRoi frame p).height = 200) ∧
    ((100 ≤ p.x ∨ 200 ≤ frame.cols) → (100 ≤ p.y ∨ 200 ≤ frame.rows) →
      (clippedMarginBox frame p).width ≤ (searchRoi frame p).width ∧
      (clippedMarginBox frame p).height ≤ (searchRoi frame p).height ∧
      frame.submat (searchRoi frame p)
        = some ⟨(searchRoi frame p).width, (searchRoi frame p).height⟩) := by
  obtain ⟨hx0, hx1⟩ := hx
  obtain ⟨hy0, hy1⟩ := hy
  refine ⟨rfl, rfl, ?_, ?_, ?_, ?_, ?_⟩ <;>
    simp only [searchRoi, clippedMarginBox, Mat.submat]
  · intro h
    rw [max_eq_right (by omega)]
    rcases le_total (frame.cols - (p.x - 100)) (100 * 2) with h1 | h1
    · rw [min_eq_left h1, min_eq_left (by omega)]
    · rw [min_eq_right h1, min_eq_right (by omega)]; omega
  · intro h1 h2
    rw [min_eq_right (by omega)]
    rfl
  · intro h
    rw [max_eq_right (by omega)]
    rcases le_total (frame.rows - (p.y - 100)) (100 * 2) with h1 | h1
    · rw [min_eq_left h1, min_eq_left (by omega)]
    · rw [min_eq_right h1, min_eq_right (by omega)]; omega
  · intro h1 h2
    rw [min_eq_right (by omega)]
    rfl
  · intro h1 h2
    have a1 := le_max_left (0 : Int) (p.x - 100)
    have a2 := le_max_right (0 : Int) (p.x - 100)
    have a3 := le_max_left (0 : Int) (p.y - 100)
    have a4 := le_max_right (0 : Int) (p.y - 100)
    have a5 : max (0 : Int) (p.x - 100) = 0 ∨ max (0 : Int) (p.x - 100) = p.x - 100 := by
      rcases le_total (0 : Int) (p.x - 100) with h | h
      · right; exact max_eq_right h
      · left; exact max_eq_left h
    have a6 : max (0 : Int) (p.y - 100) = 0 ∨ max (0 : Int) (p.y - 100) = p.y - 100 := by
      rcases le_total (0 : Int) (p.y - 100) with h | h
      · right; exact max_eq_right h
      · left; exact max_eq_left h
    have b1 : min (frame.cols - (p.x - 100)) (100 * 2) = frame.cols - (p.x - 100) ∨
        min (frame.cols - (p.x - 100)) (100 * 2) = 200 := by
      rcases le_total (frame.cols - (p.x - 100)) (100 * 2) with h | h
      · left; exact min_eq_left h
      · right; exact min_eq_right h
    have b2 : min (frame.rows - (p.y - 100)) (100 * 2) = frame.rows - (p.y - 100) ∨
        min (frame.rows - (p.y - 100)) (100 * 2) = 200 := by
      rcases le_total (frame.rows - (p.y - 100)) (100 * 2) with h | h
      · left; exact min_eq_left h
      · right; exact min_eq_right h
    have c1 := min_le_left (frame.cols - (p.x - 100)) (100 * 2)
    have c2 := min_le_right (frame.cols - (p.x - 100)) (100 * 2)
    have c3 := min_le_left (frame.rows - (p.y - 100)) (100 * 2)
    have c4 := min_le_right (frame.rows - (p.y - 100)) (100 * 2)
    have d1 := min_le_left frame.cols (p.x + 100)
    have d2 := min_le_right frame.cols (p.x + 100)
    have d3 := min_le_left frame.rows (p.y + 100)
    have d4 := min_le_right frame.rows (p.y + 100)
    refine ⟨by omega, by omega, ?_⟩
    rw [if_pos (by omega)]

/-- C13, witness: the 1920 × 1080 frame and the tracked point `(50, 500)`:
the window is `[0, 200)` wide and as high as the clipped margin box. -/
theorem search_window_extent_witness :
    (((0 : Int) ≤ 50 ∧ (50 : Int) < 1920) ∧ ((0 : Int) ≤ 500 ∧ (500 : Int) < 1080)) ∧
    (searchRoi ⟨1920, 1080⟩ ⟨50, 500⟩).width = 200 ∧
    (searchRoi ⟨1920, 1080⟩ ⟨50, 500⟩).height
      = (clippedMarginBox ⟨1920, 1080⟩ ⟨50, 500⟩).height ∧
    (⟨1920, 1080⟩ : Mat).submat (searchRoi ⟨1920, 1080⟩ ⟨50, 500⟩) = some ⟨200, 200⟩ :=
  have h := search_window_extent ⟨1920, 1080⟩ ⟨50, 500⟩ (by decide) (by decide)
  ⟨by decide, h.2.2.2.1 (by decide) (by decide), h.2.2.2.2.1 (by decide),
   (h.2.2.2.2.2.2 (by decide) (by decide)).2.2⟩

/-! ## Lemmas on reachable states -/

/-- The coordinate found by the scan lies on the surface. -/
theorem findBestMatch_on_surface (cm : Nat → Score) (cw ch : Nat) (hcw : 0 < cw)
    (hch : 0 < ch) :
    (0 ≤ (findBestMatch cm cw ch).best_x ∧ (findBestMatch cm cw ch).best_x < (cw : Int)) ∧
    (0 ≤ (findBestMatch cm cw ch).best_y ∧ (findBestMatch cm cw ch).best_y < (ch : Int)) := by
  rcases findBestMatch_inv cm cw ch with ⟨hb, _⟩ | ⟨bx, by_, hb, hbx, hlt, _, _, _⟩
  · rw [hb]
    simp only
    omega
  · rw [hb]
    have hby := row_lt_of_index_lt hlt
    simp only
    omega

theorem tdiv_two_bounds (a : Int) (h : 0 ≤ a) : 0 ≤ Int.tdiv a 2 ∧ 2 * Int.tdiv a 2 ≤ a := by
  rw [Int.tdiv_eq_ediv h (by decide)]
  omega

theorem track_fallback_eq (t : VisualTracker) (search_region : Mat)
    (cm : Nat → Score) (location : Point) (confidence : Score)
    (hready : t.template_initialized = true)
    (hdeg : search_region.cols - t.template_size.width ≤ 0 ∨
      search_region.rows - t.template_size.height ≤ 0) :
    t.track search_region cm location confidence =
      ⟨false, ⟨Int.tdiv search_region.cols 2, Int.tdiv search_region.rows 2⟩, 0, t⟩ := by
  unfold VisualTracker.track
  simp only [hready, Bool.not_true, Bool.false_eq_true, if_false]
  rw [if_pos hdeg]

/-- With a ready template of non-negative size, the point `track` writes lies
inside the search region. -/
theorem track_location_in_region (t : VisualTracker) (search_region : Mat)
    (cm : Nat → Score) (location : Point) (confidence : Score)
    (hready : t.template_initialized = true)
    (htw : 0 ≤ t.template_size.width) (hth : 0 ≤ t.template_size.height)
    (hcols : 0 < search_region.cols) (hrows : 0 < search_region.rows) :
    PointInFrame search_region (t.track search_region cm location confidence).location := by
  by_cases hdeg : search_region.cols - t.template_size.width ≤ 0 ∨
      search_region.rows - t.template_size.height ≤ 0
  · rw [track_fallback_eq t search_region cm location confidence hready hdeg]
    have h1 := tdiv_two_bounds search_region.cols (le_of_lt hcols)
    have h2 := tdiv_two_bounds search_region.rows (le_of_lt hrows)
    simp only [PointInFrame]
    omega
  · have hw : 0 < search_region.cols - t.template_size.width := by omega
    have hh : 0 < search_region.rows - t.template_size.height := by omega
    have hcw : ((search_region.cols - t.template_size.width).toNat : Int)
        = search_region.cols - t.template_size.width := Int.toNat_of_nonneg (le_of_lt hw)
    have hch : ((search_region.rows - t.template_size.height).toNat : Int)
        = search_region.rows - t.template_size.height := Int.toNat_of_nonneg (le_of_lt hh)
    rw [track_scan_eq t search_region cm location confidence _ _ hready hcw.symm hch.symm
      (by omega) (by omega)]
    have hb := findBestMatch_on_surface cm (search_region.cols - t.template_size.width).toNat
      (search_region.rows - t.template_size.height).toNat (by omega) (by omega)
    have h1 := tdiv_two_bounds t.template_size.width htw
    have h2 := tdiv_two_bounds t.template_size.height hth
    simp only [PointInFrame]
    omega

/-- An accepted crop measures between 21 and 32 pixels, starts inside the
frame and ends inside it. -/
theorem selectionRoi_accepted_bounds (inp : FrameInput)
    (hbig : (selectionRoi inp).width > 20 ∧ (selectionRoi inp).height > 20) :
    ((selectionRoi inp).width ≤ 32 ∧ (selectionRoi inp).height ≤ 32) ∧
    (0 ≤ (selectionRoi inp).x ∧ (selectionRoi inp).x + (selectionRoi inp).width ≤ inp.frame.cols) ∧
    (0 ≤ (selectionRoi inp).y ∧
      (selectionRoi inp).y + (selectionRoi inp).height ≤ inp.frame.rows) := by
  have hsub := selectionRoi_inside inp hbig
  unfold Mat.submat at hsub
  split_ifs at hsub with hc
  refine ⟨?_, ⟨hc.1, hc.2.2.1⟩, ⟨hc.2.2.2.1, hc.2.2.2.2.2⟩⟩
  unfold selectionRoi selectTemplateAtMouse
  split_ifs <;> exact ⟨min_le_left _ _, min_le_left _ _⟩

/-- The selection block keeps the template invariant, and keeps the tracked
point inside the frame it works on. -/
theorem handleSelection_inv (inp : FrameInput) (s s1 : LoopState)
    (h : handleSelection inp s = some s1) :
    (TemplateInv s → TemplateInv s1) ∧
    (PointInFrame inp.frame s.track_point → PointInFrame inp.frame s1.track_point) := by
  cases hc : (s.should_select_template && !s.tracking)
  · rw [handleSelection_skip inp s hc] at h
    obtain rfl := Option.some.inj h
    exact ⟨fun hi => hi, fun hp => hp⟩
  · have hsel : s.should_select_template = true := by
      cases h1 : s.should_select_template
      · simp [h1] at hc
      · rfl
    have hnt : s.tracking = false := by
      cases h1 : s.tracking
      · rfl
      · simp [h1] at hc
    by_cases hbig : (selectionRoi inp).width > 20 ∧ (selectionRoi inp).height > 20
    · rw [handleSelection_accept inp s hsel hnt hbig] at h
      obtain rfl := Option.some.inj h
      obtain ⟨hle, hxb, hyb⟩ := selectionRoi_accepted_bounds inp hbig
      have hsz := setTemplate_template_size s.tracker (selectionRoi inp).width
        (selectionRoi inp).height
      rw [if_pos (by omega)] at hsz
      have h1 := tdiv_two_bounds (selectionRoi inp).width (by omega)
      have h2 := tdiv_two_bounds (selectionRoi inp).height (by omega)
      constructor
      · intro _
        refine ⟨fun _ => ?_, fun _ => rfl⟩
        simp only [hsz]
        omega
      · intro _
        simp only [PointInFrame]
        omega
    · rw [handleSelection_reject inp s hsel hnt (by omega)] at h
      obtain rfl := Option.some.inj h
      exact ⟨fun hi => hi, fun hp => hp⟩

/-- The reset block keeps the template invariant. -/
theorem handleReset_inv (s : LoopState) (h : TemplateInv s) : TemplateInv (handleReset s) := by
  unfold handleReset
  split_ifs
  · exact ⟨h.1, fun hc => by simp at hc⟩
  · exact h

/-- On a frame of at least 200 × 200 the window around a point of the frame
lies in the frame and is larger than 50 × 50. -/
theorem searchRoi_in_frame (frame : Mat) (p : Point) (hcols : 200 ≤ frame.cols)
    (hrows : 200 ≤ frame.rows) (hp : PointInFrame frame p) :
    frame.submat (searchRoi frame p)
      = some ⟨(searchRoi frame p).width, (searchRoi frame p).height⟩ ∧
    ((searchRoi frame p).width > 50 ∧ (searchRoi frame p).height > 50) ∧
    (0 ≤ (searchRoi frame p).x ∧
      (searchRoi frame p).x + (searchRoi frame p).width ≤ frame.cols) ∧
    (0 ≤ (searchRoi frame p).y ∧
      (searchRoi frame p).y + (searchRoi frame p).height ≤ frame.rows) := by
  obtain ⟨⟨hx0, hx1⟩, hy0, hy1⟩ := hp
  have a5 : max (0 : Int) (p.x - 100) = 0 ∨ max (0 : Int) (p.x - 100) = p.x - 100 := by
    rcases le_total (0 : Int) (p.x - 100) with h | h
    · right; exact max_eq_right h
    · left; exact max_eq_left h
  have a6 : max (0 : Int) (p.y - 100) = 0 ∨ max (0 : Int) (p.y - 100) = p.y - 100 := by
    rcases le_total (0 : Int) (p.y - 100) with h | h
    · right; exact max_eq_right h
    · left; exact max_eq_left h
  have b1 : min (frame.cols - (p.x - 100)) (100 * 2) = frame.cols - (p.x - 100) ∨
      min (frame.cols - (p.x - 100)) (100 * 2) = 200 := by
    rcases le_total (frame.cols - (p.x - 100)) (100 * 2) with h | h
    · left; exact min_eq_left h
    · right; exact min_eq_right h
  have b2 : min (frame.rows - (p.y - 100)) (100 * 2) = frame.rows - (p.y - 100) ∨
      min (frame.rows - (p.y - 100)) (100 * 2) = 200 := by
    rcases le_total (frame.rows - (p.y - 100)) (100 * 2) with h | h
    · left; exact min_eq_left h
    · right; exact min_eq_right h
  have a1 := le_max_left (0 : Int) (p.x - 100)
  have a2 := le_max_right (0 : Int) (p.x - 100)
  have a3 := le_max_left (0 : Int) (p.y - 100)
  have a4 := le_max_right (0 : Int) (p.y - 100)
  have c1 := min_le_left (frame.cols - (p.x - 100)) (100 * 2)
  have c2 := min_le_right (frame.cols - (p.x - 100)) (100 * 2)
  have c3 := min_le_left (frame.rows - (p.y - 100)) (100 * 2)
  have c4 := min_le_right (frame.rows - (p.y - 100)) (100 * 2)
  simp only [searchRoi, Mat.submat]
  refine ⟨?_, ⟨by omega, by omega⟩, ⟨by omega, by omega⟩, ⟨by omega, by omega⟩⟩
  rw [if_pos (by omega)]

/-- An iteration on a non-empty frame is the selection block followed by the
reset and tracking blocks; on an empty frame it changes nothing. -/
theorem mainLoopStep_cases (inp : FrameInput) (s s' : LoopState)
    (h : mainLoopStep inp s = some s') :
    (inp.frame.empty = true ∧ s' = s) ∨
    (inp.frame.empty = false ∧ ∃ s1, handleSelection inp s = some s1 ∧
      performTracking inp (handleReset s1) = some s') := by
  cases he : inp.frame.empty
  · right
    obtain ⟨s1, h1, _⟩ := handleSelection_total inp s
    rw [mainLoopStep_eq inp s s1 he h1] at h
    exact ⟨rfl, s1, h1, h⟩
  · left
    unfold mainLoopStep at h
    simp only [he, if_true] at h
    exact ⟨rfl, (Option.some.inj h).symm⟩

/-- The tracking block keeps the template invariant. -/
theorem performTracking_inv (inp : FrameInput) (s s' : LoopState)
    (h : performTracking inp s = some s') (hi : TemplateInv s) : TemplateInv s' := by
  obtain ⟨ht, _, _, _, hr, hz⟩ := performTracking_preserves inp s s' h
  unfold TemplateInv
  rw [ht, hr, hz]
  exact hi

/-- On a frame of at least 200 × 200 the tracking block completes and leaves
the tracked point inside the frame. -/
theorem performTracking_in_frame (inp : FrameInput) (s : LoopState)
    (hcols : 200 ≤ inp.frame.cols) (hrows : 200 ≤ inp.frame.rows)
    (hi : TemplateInv s) (hp : PointInFrame inp.frame s.track_point) :
    ∃ s', performTracking inp s = some s' ∧ PointInFrame inp.frame s'.track_point := by
  cases htr : s.tracking
  · exact ⟨s, performTracking_idle inp s htr, hp⟩
  · obtain ⟨hsub, hbig, hxb, hyb⟩ := searchRoi_in_frame inp.frame s.track_point hcols hrows hp
    have hready := hi.2 htr
    obtain ⟨⟨hw1, _⟩, hh1, _⟩ := hi.1 hready
    have hloc := track_location_in_region s.tracker
      ⟨(searchRoi inp.frame s.track_point).width, (searchRoi inp.frame s.track_point).height⟩
      inp.correlation_map s.track_point s.confidence hready (by omega) (by omega)
      (by show 0 < (searchRoi inp.frame s.track_point).width; omega)
      (by show 0 < (searchRoi inp.frame s.track_point).height; omega)
    simp only [PointInFrame] at hloc
    cases hs : (s.tracker.track
        ⟨(searchRoi inp.frame s.track_point).width, (searchRoi inp.frame s.track_point).height⟩
        inp.correlation_map s.track_point s.confidence).success
    · refine ⟨_, performTracking_failure inp s _ htr hbig hsub hs, ?_⟩
      simp only [PointInFrame]
      omega
    · refine ⟨_, performTracking_success inp s _ htr hbig hsub hs, ?_⟩
      simp only [PointInFrame]
      omega

/-- Every reachable state satisfies the template invariant, whatever the
frames. -/
theorem reachable_templateInv (frames : Mat → Prop) (s : LoopState)
    (h : Reachable frames s) : TemplateInv s := by
  induction h with
  | init c q p k =>
    exact ⟨fun hc => by simp [initialLoopState, VisualTracker.initialized] at hc,
      fun hc => by simp [initialLoopState] at hc⟩
  | select s _ ih => exact ih
  | reset s _ ih => exact ih
  | step s s' inp _ _ hstep ih =>
    rcases mainLoopStep_cases inp s s' hstep with ⟨_, rfl⟩ | ⟨_, s1, h1, h2⟩
    · exact ih
    · exact performTracking_inv inp _ s' h2
        (handleReset_inv s1 ((handleSelection_inv inp s s1 h1).1 ih))

/-- With every frame equal to one frame of at least 200 × 200, the tracked
point of every reachable state lies inside that frame. -/
theorem reachable_point_in_frame (frame : Mat) (s : LoopState) (hcols : 200 ≤ frame.cols)
    (hrows : 200 ≤ frame.rows) (h : Reachable (fun m => m = frame) s) :
    PointInFrame frame s.track_point := by
  induction h with
  | init c q p k =>
    simp only [PointInFrame, initialLoopState]
    omega
  | select s _ ih => exact ih
  | reset s _ ih => exact ih
  | step s s' inp hr hf hstep ih =>
    have hf' : inp.frame = frame := hf
    rcases mainLoopStep_cases inp s s' hstep with ⟨_, rfl⟩ | ⟨_, s1, h1, h2⟩
    · exact ih
    · have hi1 := handleReset_inv s1
        ((handleSelection_inv inp s s1 h1).1 (reachable_templateInv _ s hr))
      have hp1 : PointInFrame inp.frame (handleReset s1).track_point := by
        rw [(handleReset_tracker s1).2.1]
        exact (handleSelection_inv inp s s1 h1).2 (by rw [hf']; exact ih)
      obtain ⟨s2, hs2, hp2⟩ := performTracking_in_frame inp (handleReset s1)
        (by rw [hf']; exact hcols) (by rw [hf']; exact hrows) hi1 hp1
      rw [hs2] at h2
      obtain rfl := Option.some.inj h2
      rw [← hf']
      exact hp2

theorem submat_some (frame : Mat) (roi : Rect) (region : Mat)
    (h : frame.submat roi = some region) :
    region = ⟨roi.width, roi.height⟩ := by
  unfold Mat.submat at h
  split_ifs at h
  exact (Option.some.inj h).symm

/-! ## Invariants of the frame step -/

/-- C14: for a fixed frame size of at least 200 × 200, in every state
reachable from the initial state by frame steps and requests of the input
threads, `track_point` lies inside the frame, and when `tracking` is true the
search window built from it lies inside the frame and is wider and higher
than 50 pixels. Moreover every further frame step completes, and at its
tracking block the point is inside the frame and, when tracking is active,
the window lies inside the frame and passes the size test, so the search is
not skipped. -/
theorem tracked_point_stays_in_frame (frame : Mat) (s : LoopState)
    (hcols : 200 ≤ frame.cols) (hrows : 200 ≤ frame.rows)
    (hreach : Reachable (fun m => m = frame) s) :
    ((0 ≤ s.track_point.x ∧ s.track_point.x < frame.cols) ∧
      (0 ≤ s.track_point.y ∧ s.track_point.y < frame.rows)) ∧
    (s.tracking = true →
      frame.submat (searchRoi frame s.track_point)
        = some ⟨(searchRoi frame s.track_point).width, (searchRoi frame s.track_point).height⟩ ∧
      (searchRoi frame s.track_point).width > 50 ∧
      (searchRoi frame s.track_point).height > 50) ∧
    (∀ inp : FrameInput, inp.frame = frame →
      ∃ s1 s', handleSelection inp s = some s1 ∧ mainLoopStep inp s = some s' ∧
        PointInFrame frame (handleReset s1).track_point ∧
        ((handleReset s1).tracking = true →
          frame.submat (searchRoi frame (handleReset s1).track_point)
            = some ⟨(searchRoi frame (handleReset s1).track_point).width,
                    (searchRoi frame (handleReset s1).track_point).height⟩ ∧
          (searchRoi frame (handleReset s1).track_point).width > 50 ∧
          (searchRoi frame (handleReset s1).track_point).height > 50)) := by
  have hp := reachable_point_in_frame frame s hcols hrows hreach
  have hi := reachable_templateInv _ s hreach
  refine ⟨hp, ?_, ?_⟩
  · intro _
    obtain ⟨h1, h2, _⟩ := searchRoi_in_frame frame s.track_point hcols hrows hp
    exact ⟨h1, h2.1, h2.2⟩
  · intro inp hf
    obtain ⟨s1, h1, _⟩ := handleSelection_total inp s
    have hne : inp.frame.empty = false := by
      rw [hf]
      unfold Mat.empty
      simp only [decide_eq_false_iff_not]
      omega
    have hi1 := handleReset_inv s1 ((handleSelection_inv inp s s1 h1).1 hi)
    have hp1 : PointInFrame inp.frame (handleReset s1).track_point := by
      rw [(handleReset_tracker s1).2.1]
      exact (handleSelection_inv inp s s1 h1).2 (by rw [hf]; exact hp)
    obtain ⟨s', hs', _⟩ := performTracking_in_frame inp (handleReset s1)
      (by rw [hf]; exact hcols) (by rw [hf]; exact hrows) hi1 hp1
    rw [hf] at hp1
    refine ⟨s1, s', h1, ?_, hp1, ?_⟩
    · rw [mainLoopStep_eq inp s s1 hne h1]
      exact hs'
    · intro _
      obtain ⟨k1, k2, _⟩ := searchRoi_in_frame frame (handleReset s1).track_point hcols hrows hp1
      exact ⟨k1, k2.1, k2.2⟩

/-- C14, witness: the 1920 × 1080 frame and the state reached when a
selection is requested on entry of the loop; the step that selects at
`(500, 400)` completes and its tracking block works on the point
`(500, 400)` with the window `(400, 300, 200, 200)`. -/
theorem tracked_point_stays_in_frame_witness :
    ((200 : Int) ≤ (⟨1920, 1080⟩ : Mat).cols ∧ (200 : Int) ≤ (⟨1920, 1080⟩ : Mat).rows ∧
      Reachable (fun m => m = ⟨1920, 1080⟩) selectingState) ∧
    ∃ s1 s', handleSelection (frameInput 500 400 (9 / 10)) selectingState = some s1 ∧
      mainLoopStep (frameInput 500 400 (9 / 10)) selectingState = some s' ∧
      (handleReset s1).tracking = true ∧ (handleReset s1).track_point = ⟨500, 400⟩ ∧
      (⟨1920, 1080⟩ : Mat).submat (searchRoi ⟨1920, 1080⟩ (handleReset s1).track_point)
        = some ⟨200, 200⟩ := by
  have hr : Reachable (fun m => m = (⟨1920, 1080⟩ : Mat)) selectingState :=
    Reachable.select _ (Reachable.init 1 2 3 4)
  refine ⟨⟨by decide, by decide, hr⟩, ?_⟩
  obtain ⟨s1, s', h1, h2, _, h4⟩ :=
    (tracked_point_stays_in_frame ⟨1920, 1080⟩ selectingState (by decide) (by decide) hr).2.2
      (frameInput 500 400 (9 / 10)) rfl
  have hacc := handleSelection_accept (frameInput 500 400 (9 / 10)) selectingState
    (by decide) (by decide) (by decide)
  rw [hacc] at h1
  obtain rfl := Option.some.inj h1
  have ht : (handleReset { selectingState with
      tracker := selectingState.tracker.setTemplate
        ⟨(selectionRoi (frameInput 500 400 (9 / 10))).width,
         (selectionRoi (frameInput 500 400 (9 / 10))).height⟩
      template_roi := selectionRoi (frameInput 500 400 (9 / 10))
      track_point :=
        ⟨(selectionRoi (frameInput 500 400 (9 / 10))).x
            + Int.tdiv (selectionRoi (frameInput 500 400 (9 / 10))).width 2,
         (selectionRoi (frameInput 500 400 (9 / 10))).y
            + Int.tdiv (selectionRoi (frameInput 500 400 (9 / 10))).height 2⟩
      tracking := true
      should_select_template := false }).tracking = true := by decide
  have hpt : (handleReset { selectingState with
      tracker := selectingState.tracker.setTemplate
        ⟨(selectionRoi (frameInput 500 400 (9 / 10))).width,
         (selectionRoi (frameInput 500 400 (9 / 10))).height⟩
      template_roi := selectionRoi (frameInput 500 400 (9 / 10))
      track_point :=
        ⟨(selectionRoi (frameInput 500 400 (9 / 10))).x
            + Int.tdiv (selectionRoi (frameInput 500 400 (9 / 10))).width 2,
         (selectionRoi (frameInput 500 400 (9 / 10))).y
            + Int.tdiv (selectionRoi (frameInput 500 400 (9 / 10))).height 2⟩
      tracking := true
      should_select_template := false }).track_point = ⟨500, 400⟩ := by decide
  refine ⟨_, s', hacc, h2, ht, hpt, ?_⟩
  rw [hpt]
  decide

/-- C15: in every state reachable from the initial state, for every frame
size and pointer position, when a frame step reaches the call of `track`
(tracking is active after the selection and reset blocks, the search window
is larger than 50 × 50 and lies in the frame), the template is ready with
width and height between 21 and 32, the search region is at least 51 × 51 and
both correlation-surface dimensions are at least 19; `track` therefore takes
neither the not-ready exit nor the fallback, but dispatches and reports the
result of the scan. -/
theorem track_call_takes_scan_path (s s1 s2 : LoopState) (inp : FrameInput) (roi : Rect)
    (region : Mat)
    (hreach : Reachable (fun _ => True) s)
    (hsel : handleSelection inp s = some s1)
    (hs2 : s2 = handleReset s1)
    (htr : s2.tracking = true)
    (hroi : roi = searchRoi inp.frame s2.track_point)
    (hbig : roi.width > 50 ∧ roi.height > 50)
    (hsub : inp.frame.submat roi = some region) :
    s2.tracker.template_initialized = true ∧
    ((21 ≤ s2.tracker.template_size.width ∧ s2.tracker.template_size.width ≤ 32) ∧
      (21 ≤ s2.tracker.template_size.height ∧ s2.tracker.template_size.height ≤ 32)) ∧
    region = ⟨(searchRoi inp.frame s2.track_point).width,
              (searchRoi inp.frame s2.track_point).height⟩ ∧
    (51 ≤ region.cols ∧ 51 ≤ region.rows) ∧
    (19 ≤ region.cols - s2.tracker.template_size.width ∧
      19 ≤ region.rows - s2.tracker.template_size.height) ∧
    s2.tracker.track region inp.correlation_map s2.track_point s2.confidence =
      ⟨decide ((findBestMatch inp.correlation_map
            (region.cols - s2.tracker.template_size.width).toNat
            (region.rows - s2.tracker.template_size.height).toNat).best_correlation
          > confidenceThreshold),
       ⟨(findBestMatch inp.correlation_map
            (region.cols - s2.tracker.template_size.width).toNat
            (region.rows - s2.tracker.template_size.height).toNat).best_x
          + Int.tdiv s2.tracker.template_size.width 2,
        (findBestMatch inp.correlation_map
            (region.cols - s2.tracker.template_size.width).toNat
            (region.rows - s2.tracker.template_size.height).toNat).best_y
          + Int.tdiv s2.tracker.template_size.height 2⟩,
       (findBestMatch inp.correlation_map
            (region.cols - s2.tracker.template_size.width).toNat
            (region.rows - s2.tracker.template_size.height).toNat).best_correlation,
       { s2.tracker with
         cl_calls :=
           dispatchCalls s2.tracker s2.tracker.cl_calls region.cols region.rows
             ((region.cols - s2.tracker.template_size.width).toNat : Nat)
             ((region.rows - s2.tracker.template_size.height).toNat : Nat) }⟩ := by
  have hi : TemplateInv s2 := by
    rw [hs2]
    exact handleReset_inv s1
      ((handleSelection_inv inp s s1 hsel).1 (reachable_templateInv _ s hreach))
  have hready := hi.2 htr
  obtain ⟨⟨hw1, hw2⟩, hh1, hh2⟩ := hi.1 hready
  have hreg := submat_some inp.frame roi region hsub
  have hc : region.cols = roi.width := by rw [hreg]
  have hr : region.rows = roi.height := by rw [hreg]
  have hcw : ((region.cols - s2.tracker.template_size.width).toNat : Int)
      = region.cols - s2.tracker.template_size.width := Int.toNat_of_nonneg (by omega)
  have hch : ((region.rows - s2.tracker.template_size.height).toNat : Int)
      = region.rows - s2.tracker.template_size.height := Int.toNat_of_nonneg (by omega)
  refine ⟨hready, ⟨⟨hw1, hw2⟩, hh1, hh2⟩, by rw [hreg, hroi], ⟨by omega, by omega⟩,
    ⟨by omega, by omega⟩, ?_⟩
  exact track_scan_eq s2.tracker region inp.correlation_map s2.track_point s2.confidence _ _
    hready hcw.symm hch.symm (by omega) (by omega)

/-- C15, witness: the step that selects at `(500, 400)` on the 1920 × 1080
frame right after a request on entry of the loop; `track` is called with the
32 × 32 template on a 200 × 200 region, a 168 × 168 surface. -/
theorem track_call_takes_scan_path_witness :
    (Reachable (fun _ => True) selectingState ∧
      handleSelection (frameInput 500 400 (9 / 10)) selectingState = some selectedState ∧
      selectedState = handleReset selectedState ∧ selectedState.tracking = true ∧
      (⟨400, 300, 200, 200⟩ : Rect)
        = searchRoi (frameInput 500 400 (9 / 10)).frame selectedState.track_point ∧
      (frameInput 500 400 (9 / 10)).frame.submat ⟨400, 300, 200, 200⟩ = some ⟨200, 200⟩) ∧
    selectedState.tracker.template_initialized = true ∧
    selectedState.tracker.template_size = ⟨32, 32⟩ ∧
    (19 : Int) ≤ (⟨200, 200⟩ : Mat).cols - selectedState.tracker.template_size.width := by
  have hr : Reachable (fun _ => True) selectingState :=
    Reachable.select _ (Reachable.init 1 2 3 4)
  have hacc : handleSelection (frameInput 500 400 (9 / 10)) selectingState
      = some selectedState :=
    handleSelection_accept (frameInput 500 400 (9 / 10)) selectingState
      (by decide) (by decide) (by decide)
  have h := track_call_takes_scan_path selectingState selectedState selectedState
    (frameInput 500 400 (9 / 10)) ⟨400, 300, 200, 200⟩ ⟨200, 200⟩ hr hacc rfl rfl
    (by decide) (by decide) (by decide)
  exact ⟨⟨hr, hacc, rfl, rfl, by decide, by decide⟩, h.1, by decide, h.2.2.2.2.1.1⟩

/-! ## A selection requested while tracking -/

/-- A completed iteration that starts with `tracking` true, or that skips an
empty frame, keeps the selection request, the template and the rectangle of
the last selection. -/
theorem tracking_step_keeps_request (inp : FrameInput) (s s' : LoopState)
    (hcond : s.tracking = true ∨ inp.frame.empty = true)
    (h : mainLoopStep inp s = some s') :
    s'.should_select_template = s.should_select_template ∧
    s'.tracker.template_initialized = s.tracker.template_initialized ∧
    s'.tracker.template_size = s.tracker.template_size ∧
    s'.template_roi = s.template_roi := by
  rcases mainLoopStep_cases inp s s' h with ⟨_, rfl⟩ | ⟨hne, s1, h1, h2⟩
  · exact ⟨rfl, rfl, rfl, rfl⟩
  · have htr : s.tracking = true := by
      rcases hcond with hc | hc
      · exact hc
      · rw [hne] at hc
        exact absurd hc (by decide)
    rw [handleSelection_skip inp s (by simp [htr])] at h1
    obtain rfl := Option.some.inj h1
    obtain ⟨_, hs, _, hroi, hi, hz⟩ := performTracking_preserves inp (handleReset s) s' h2
    obtain ⟨k1, _, _, k4, k5⟩ := handleReset_tracker s
    rw [k1] at hi hz
    rw [k4] at hroi
    rw [k5] at hs
    exact ⟨hs, hi, hz, hroi⟩

/-- With a selection requested and `tracking` false, the selection block
handles the request, and a completed iteration ends with the request
cleared. -/
theorem pending_selection_handled (inp : FrameInput) (s : LoopState)
    (hsel : s.should_select_template = true) (hnt : s.tracking = false) :
    ∃ s1, SelectionHandled inp s s1 ∧
      (inp.frame.empty = false →
        ∀ s2, mainLoopStep inp s = some s2 → s2.should_select_template = false) := by
  have hstep : ∀ s1, handleSelection inp s = some s1 → s1.should_select_template = false →
      inp.frame.empty = false →
      ∀ s2, mainLoopStep inp s = some s2 → s2.should_select_template = false := by
    intro s1 h1 hf hne s2 h2
    rw [mainLoopStep_eq inp s s1 hne h1] at h2
    obtain ⟨_, hs, _⟩ := performTracking_preserves inp (handleReset s1) s2 h2
    rw [hs, (handleReset_tracker s1).2.2.2.2, hf]
  by_cases hbig : (selectionRoi inp).width > 20 ∧ (selectionRoi inp).height > 20
  · have hacc := handleSelection_accept inp s hsel hnt hbig
    exact ⟨_, ⟨hacc, rfl, rfl, ⟨fun _ => hbig, fun _ => rfl⟩, fun _ => ⟨rfl, rfl⟩,
      fun hc => by simp at hc⟩, hstep _ hacc rfl⟩
  · have hrej := handleSelection_reject inp s hsel hnt (by omega)
    exact ⟨_, ⟨hrej, rfl, rfl, ⟨fun hc => by simp [hnt] at hc, fun hc => absurd hc hbig⟩,
      fun hc => by simp [hnt] at hc, fun _ => ⟨rfl, rfl⟩⟩, hstep _ hrej rfl⟩

/-- C16, counterexample: tracking at `(500, 400)` with a selection and a
reset both requested, the pointer at `(1919, 500)` on the 1920 × 1080 frame.
The first step handles the reset and keeps the selection request; the next
step acts on the request but rejects the 17 × 32 crop, so the engine is
still idle after it and the template is the old one. -/
theorem pending_select_rejected_at_edge :
    (pendingSelectState.tracking = true ∧ pendingSelectState.should_select_template = true ∧
      pendingSelectState.should_reset_tracking = true) ∧
    mainLoopStep (frameInput 1919 500 0) pendingSelectState = some idlePendingState ∧
    (idlePendingState.tracking = false ∧ idlePendingState.should_select_template = true) ∧
    selectionRoi (frameInput 1919 500 0) = ⟨1903, 484, 17, 32⟩ ∧
    mainLoopStep (frameInput 1919 500 0) idlePendingState = some rejectedState ∧
    (rejectedState.tracking = false ∧ rejectedState.should_select_template = false ∧
      rejectedState.tracker = pendingSelectState.tracker) := by
  refine ⟨⟨rfl, rfl, rfl⟩, ?_, ⟨rfl, rfl⟩, by decide, ?_, ⟨rfl, rfl, rfl⟩⟩
  · rw [mainLoopStep_eq (frameInput 1919 500 0) pendingSelectState pendingSelectState
      (by decide) (handleSelection_skip _ _ (by decide)),
      handleReset_requested pendingSelectState (by decide)]
    exact performTracking_idle _ _ rfl
  · have h1 : handleSelection (frameInput 1919 500 0) idlePendingState = some rejectedState :=
      handleSelection_reject (frameInput 1919 500 0) idlePendingState (by decide) (by decide)
        (by decide)
    rw [mainLoopStep_eq (frameInput 1919 500 0) idlePendingState rejectedState
      (by decide) h1, show handleReset rejectedState = rejectedState from rfl]
    exact performTracking_idle _ _ rfl

/-- C16 (amended): a selection request that is set is neither acted on nor
consumed by frame steps that start with tracking active (or skip an empty
frame): after any number of them the request is still set and the template
and the selection rectangle are the old ones. If such a state has tracking
active and a reset requested, the next step on a non-empty frame ends idle
with the reset cleared and the selection still requested. In a state with
tracking inactive the selection block of the next step on a non-empty frame
acts on the request at the pointer position of that step and clears it; it
sets the template and makes tracking active exactly when the crop is wider
and higher than 20 pixels, and otherwise leaves the engine idle. -/
theorem pending_select_survives_tracking (s s' : LoopState)
    (hsel : s.should_select_template = true) (hrun : TrackingRun s s') :
    (s'.should_select_template = true ∧
      s'.tracker.template_initialized = s.tracker.template_initialized ∧
      s'.tracker.template_size = s.tracker.template_size ∧
      s'.template_roi = s.template_roi) ∧
    (∀ inp : FrameInput, inp.frame.empty = false → s'.tracking = true →
      s'.should_reset_tracking = true →
      ∃ s2, mainLoopStep inp s' = some s2 ∧ s2.tracking = false ∧
        s2.should_select_template = true ∧ s2.should_reset_tracking = false ∧
        ∀ inp2 : FrameInput, ∃ s3, SelectionHandled inp2 s2 s3 ∧
          (inp2.frame.empty = false →
            ∀ s4, mainLoopStep inp2 s2 = some s4 → s4.should_select_template = false)) ∧
    (∀ inp : FrameInput, s'.tracking = false →
      ∃ s1, SelectionHandled inp s' s1 ∧
        (inp.frame.empty = false →
          ∀ s2, mainLoopStep inp s' = some s2 → s2.should_select_template = false)) := by
  have hkeep : s'.should_select_template = true ∧
      s'.tracker.template_initialized = s.tracker.template_initialized ∧
      s'.tracker.template_size = s.tracker.template_size ∧
      s'.template_roi = s.template_roi := by
    induction hrun with
    | refl => exact ⟨hsel, rfl, rfl, rfl⟩
    | select s1 _ ih => exact ⟨rfl, ih.2⟩
    | reset s1 _ ih => exact ih
    | step s1 s2 inp _ hcond hstep ih =>
      obtain ⟨k1, k2, k3, k4⟩ := tracking_step_keeps_request inp s1 s2 hcond hstep
      obtain ⟨i1, i2, i3, i4⟩ := ih
      exact ⟨by rw [k1, i1], by rw [k2, i2], by rw [k3, i3], by rw [k4, i4]⟩
  refine ⟨hkeep, ?_, ?_⟩
  · intro inp hne htr hreset
    have h1 := handleSelection_skip inp s' (by simp [htr])
    have hstep : mainLoopStep inp s'
        = some { s' with tracking := false, should_reset_tracking := false } := by
      rw [mainLoopStep_eq inp s' s' hne h1, handleReset_requested s' hreset]
      exact performTracking_idle inp _ rfl
    exact ⟨_, hstep, rfl, hkeep.1, rfl, fun inp2 =>
      pending_selection_handled inp2 _ hkeep.1 rfl⟩
  · intro inp hnt
    exact pending_selection_handled inp s' hkeep.1 hnt

/-- C16, witness: the selection and the reset requested while tracking at
`(500, 400)`; one step with the pointer at `(700, 300)` ends idle with the
selection still requested. -/
theorem pending_select_survives_tracking_witness :
    (pendingSelectState.should_select_template = true ∧
      TrackingRun pendingSelectState pendingSelectState ∧
      (frameInput 700 300 0).frame.empty = false ∧ pendingSelectState.tracking = true ∧
      pendingSelectState.should_reset_tracking = true) ∧
    ∃ s2, mainLoopStep (frameInput 700 300 0) pendingSelectState = some s2 ∧
      s2.tracking = false ∧ s2.should_select_template = true ∧
      s2.should_reset_tracking = false ∧
      ∃ s3, SelectionHandled (frameInput 700 300 0) s2 s3 := by
  obtain ⟨s2, h1, h2, h3, h4, h5⟩ :=
    (pending_select_survives_tracking pendingSelectState pendingSelectState rfl
      (TrackingRun.refl _)).2.1 (frameInput 700 300 0) (by decide) rfl rfl
  obtain ⟨s3, h6, _⟩ := h5 (frameInput 700 300 0)
  exact ⟨⟨rfl, TrackingRun.refl _, by decide, rfl, rfl⟩, s2, h1, h2, h3, h4, s3, h6⟩

end NccTracker
